import Mathlib

/-!
Shallow embedding of the Firecracker VMM boot assembler (`src/vmm/src/builder.rs`)
and action controller (`src/vmm/src/controller.rs`).

Host-kernel effects (file opens, KVM ioctls, tap devices, MMIO registration)
are abstracted behind a `HostEnv` record of oracles; everything the two source
files themselves compute is translated directly.  Types that live in sibling
crates of the repository (kernel cmdline errors, drive/network config errors,
guest-memory errors, the MMIO device-manager error) are reconstructed from
their use sites in the two source files and from the specification; such
definitions carry a `Modelled from the spec:` note.  Machine integers are
modelled as `Nat` (none of the verified properties involve overflow).
The x86_64 configuration of the builder is the one embedded, matching the
specification's boot-protocol surface.
-/

namespace Firecracker

/-- Error kind taxonomy for VMM actions (`controller.rs`, `enum ErrorKind`):
`User` marks bad input, `Internal` marks resource/host failures. -/
inductive ErrorKind
  | User
  | Internal
deriving DecidableEq

/-- Errors of the host tap device (`utils::net::TapError`, enumerated at its
match site in `controller.rs:211-216`); the io-error payloads irrelevant to
classification are abstracted to numeric codes. -/
inductive TapError
  | OpenTun (e : Nat)
  | CreateTap (e : Nat)
  | IoctlError (e : Nat)
  | CreateSocket (e : Nat)
  | InvalidIfname
deriving DecidableEq

/-- Modelled from the spec: `kernel::cmdline::Error` (the `kernel` crate is not
under `src/`).  The spec names `CommandLineOverflow` ("fails
`CommandLineOverflow` if total would exceed the cap", spec section 6); the other
constructors stand for the remaining causes (invalid content), which the
conversion in `controller.rs:144-147` treats uniformly through its
catch-all arm. -/
inductive CmdlineError
  | CommandLineOverflow
  | InvalidAscii
  | HasSpace
  | HasEquals
deriving DecidableEq

/-- Modelled from the spec: rendering of a `kernel::cmdline::Error` used by
`impl From<kernel::cmdline::Error> for StartMicrovmError` (`e.to_string()`);
the exact text is irrelevant to every claim. -/
def CmdlineError.message : CmdlineError → String
  | .CommandLineOverflow => "inserting string would exceed the command line size"
  | .InvalidAscii => "string contains invalid ascii"
  | .HasSpace => "string contains a space"
  | .HasEquals => "string contains an equals sign"

/-- `vmm_config::drive::DriveError`, with its variants enumerated at the match
site of `impl From<DriveError> for VmmActionError` (`controller.rs:162-173`). -/
inductive DriveError
  | CannotOpenBlockDevice (e : Nat)
  | InvalidBlockDeviceID
  | InvalidBlockDevicePath
  | BlockDevicePathAlreadyExists
  | EpollHandlerNotFound
  | BlockDeviceUpdateFailed
  | OperationNotAllowedPreBoot
  | UpdateNotAllowedPostBoot
  | RootBlockDeviceAlreadyAdded
deriving DecidableEq

/-- `vmm_config::machine_config::VmConfigError`, variants enumerated at
`controller.rs:188-191`. -/
inductive VmConfigError
  | InvalidVcpuCount
  | InvalidMemorySize
  | UpdateNotAllowedPostBoot
deriving DecidableEq

/-- `vmm_config::net::NetworkInterfaceError`, variants enumerated at
`controller.rs:203-216`. -/
inductive NetworkInterfaceError
  | GuestMacAddressInUse (mac : String)
  | HostDeviceNameInUse (name : String)
  | DeviceIdNotFound
  | UpdateNotAllowedPostBoot
  | EpollHandlerNotFound (e : Nat)
  | RateLimiterUpdateFailed (e : Nat)
  | OpenTap (e : TapError)
deriving DecidableEq

/-- Modelled from the spec: `memory_model::GuestMemoryError` ("Fails with
`MemoryNotInitialized` if size is absent, with mmap/overlap errors otherwise",
spec section 4.1). -/
inductive GuestMemoryError
  | MemoryNotInitialized
  | MemoryRegionOverlap
  | MmapFailed (e : Nat)
deriving DecidableEq

/-- Modelled from the spec: `device_manager::mmio::Error`.  `CreateMmioDevice`
appears at its wrap sites in `builder.rs`; registration itself can fail on IRQ
exhaustion, bus mapping, or the command-line append performed inside
`register_mmio_device` (spec section 4.3). -/
inductive MmioError
  | CreateMmioDevice (e : Nat)
  | Cmdline (e : CmdlineError)
  | IrqsExhausted
  | BusError (e : Nat)
deriving DecidableEq

/-- Modelled from the spec: the crate-level `error::Error` (`error.rs` is not
under `src/`); only the constructors applied in `builder.rs` are needed, plus a
catch-all for the remaining internal causes. -/
inductive VmmInternalError
  | KernelFile (e : Nat)
  | TimerFd (e : Nat)
  | EventManager (e : Nat)
  | KvmContext (e : Nat)
  | Vm (e : Nat)
  | CreateLegacyDevice (e : Nat)
  | Other (e : Nat)
deriving DecidableEq

/-- `builder.rs:37-79`, `enum StartMicrovmError`; io-error payloads abstracted
to numeric codes. -/
inductive StartMicrovmError
  | ConfigureVm (e : Nat)
  | CreateBlockDevice (e : Nat)
  | CreateNetDevice (e : Nat)
  | CreateRateLimiter (e : Nat)
  | CreateVsockBackend (e : Nat)
  | CreateVsockDevice (e : Nat)
  | GuestMemory (e : GuestMemoryError)
  | Internal (e : VmmInternalError)
  | KernelCmdline (msg : String)
  | KernelLoader (e : Nat)
  | LoadCommandline (e : CmdlineError)
  | MicroVMAlreadyRunning
  | MissingKernelConfig
  | NetDeviceNotConfigured
  | OpenBlockDevice (e : Nat)
  | RegisterBlockDevice (e : MmioError)
  | RegisterNetDevice (e : MmioError)
  | RegisterVsockDevice (e : MmioError)
deriving DecidableEq

/-- `impl From<kernel::cmdline::Error> for StartMicrovmError`
(`builder.rs:83-87`). -/
def StartMicrovmError.ofCmdlineError (e : CmdlineError) : StartMicrovmError :=
  .KernelCmdline e.message

/-- `controller.rs:86-116`, `enum VmmActionError`; the cause payloads of the
subsystems outside the two source files (boot source, logger, vsock,
send-ctrl-alt-del) are abstracted to numeric codes. -/
inductive VmmActionError
  | BootSource (kind : ErrorKind) (e : Nat)
  | DriveConfig (kind : ErrorKind) (e : DriveError)
  | Logger (kind : ErrorKind) (e : Nat)
  | MachineConfig (kind : ErrorKind) (e : VmConfigError)
  | NetworkConfig (kind : ErrorKind) (e : NetworkInterfaceError)
  | OperationNotSupportedPostBoot
  | OperationNotSupportedPreBoot
  | StartMicrovm (kind : ErrorKind) (e : StartMicrovmError)
  | SendCtrlAltDel (kind : ErrorKind) (e : Nat)
  | VsockConfig (kind : ErrorKind) (e : Nat)
deriving DecidableEq

/-- `impl From<StartMicrovmError> for VmmActionError` (`controller.rs:119-151`). -/
def VmmActionError.ofStartMicrovmError (e : StartMicrovmError) : VmmActionError :=
  let kind : ErrorKind :=
    match e with
    | .CreateVsockBackend _ | .CreateBlockDevice _ | .CreateNetDevice _
    | .KernelCmdline _ | .KernelLoader _ | .MicroVMAlreadyRunning
    | .MissingKernelConfig | .NetDeviceNotConfigured
    | .OpenBlockDevice _ => .User
    | .ConfigureVm _ | .CreateRateLimiter _ | .CreateVsockDevice _
    | .GuestMemory _ | .Internal _ | .RegisterBlockDevice _
    | .RegisterNetDevice _ | .RegisterVsockDevice _ => .Internal
    | .LoadCommandline cle =>
      match cle with
      | .CommandLineOverflow => .User
      | _ => .Internal
  .StartMicrovm kind e

/-- `impl From<DriveError> for VmmActionError` (`controller.rs:154-177`). -/
def VmmActionError.ofDriveError (e : DriveError) : VmmActionError :=
  let kind : ErrorKind :=
    match e with
    | .CannotOpenBlockDevice _ | .InvalidBlockDeviceID | .InvalidBlockDevicePath
    | .BlockDevicePathAlreadyExists | .EpollHandlerNotFound
    | .BlockDeviceUpdateFailed | .OperationNotAllowedPreBoot
    | .UpdateNotAllowedPostBoot | .RootBlockDeviceAlreadyAdded => .User
  .DriveConfig kind e

/-- `impl From<VmConfigError> for VmmActionError` (`controller.rs:180-195`). -/
def VmmActionError.ofVmConfigError (e : VmConfigError) : VmmActionError :=
  let kind : ErrorKind :=
    match e with
    | .InvalidVcpuCount | .InvalidMemorySize | .UpdateNotAllowedPostBoot => .User
  .MachineConfig kind e

/-- `impl From<NetworkInterfaceError> for VmmActionError`
(`controller.rs:198-221`), including the inner `TapError` classification. -/
def VmmActionError.ofNetworkInterfaceError (e : NetworkInterfaceError) : VmmActionError :=
  let kind : ErrorKind :=
    match e with
    | .GuestMacAddressInUse _ | .HostDeviceNameInUse _ | .DeviceIdNotFound
    | .UpdateNotAllowedPostBoot => .User
    | .EpollHandlerNotFound _ | .RateLimiterUpdateFailed _ => .Internal
    | .OpenTap te =>
      match te with
      | .OpenTun _ | .CreateTap _ | .InvalidIfname => .User
      | .IoctlError _ | .CreateSocket _ => .Internal
  .NetworkConfig kind e

/-- `VmmActionError::kind` (`controller.rs:223-239`). -/
def VmmActionError.kind : VmmActionError → ErrorKind
  | .BootSource k _ => k
  | .DriveConfig k _ => k
  | .Logger k _ => k
  | .MachineConfig k _ => k
  | .NetworkConfig k _ => k
  | .OperationNotSupportedPostBoot => .User
  | .OperationNotSupportedPreBoot => .User
  | .StartMicrovm k _ => k
  | .SendCtrlAltDel k _ => k
  | .VsockConfig k _ => k

/-! ### Kernel command line

The command line is modelled as a list of structured fragments together with
the capacity bound; `insert_str` follows the semantics of spec section 6:
append a separating space plus the string when the line is non-empty, fail
with `CommandLineOverflow` when the rendered length would exceed the cap.
Fragments are structured (rather than raw strings) because the two source
files only ever insert these shapes; `virtioMmio` stands for the
`virtio_mmio.device=...` fragment appended by `register_mmio_device` and
carries the rendered length of that fragment. -/

/-- A fragment inserted into the kernel command line. -/
inductive CmdFrag
  | rootDevVda
  | rootPartuuid (uuid : String)
  | flag (read_only : Bool)
  | virtioMmio (len : Nat)
deriving DecidableEq

/-- Rendered length of a fragment: `root=/dev/vda` has 13 characters,
`root=PARTUUID=` has 14, the flags `ro`/`rw` have 2. -/
def CmdFrag.len : CmdFrag → Nat
  | .rootDevVda => 13
  | .rootPartuuid uuid => 14 + uuid.length
  | .flag _ => 2
  | .virtioMmio n => n

/-- Modelled from the spec: `kernel::cmdline::Cmdline` — a bounded buffer with
insert-at-end-with-separator semantics (spec sections 3 and 6). -/
structure Cmdline where
  frags : List CmdFrag
  capacity : Nat
deriving DecidableEq

/-- Rendered length of the whole command line (fragments joined by single
spaces). -/
def Cmdline.renderedLen (c : Cmdline) : Nat :=
  match c.frags with
  | [] => 0
  | f :: rest => rest.foldl (fun acc g => acc + 1 + g.len) f.len

/-- Modelled from the spec: `Cmdline::insert_str` — "appends `' ' + s` if
non-empty, else `s`; fails `CommandLineOverflow` if total would exceed the
cap" (spec section 6). -/
def Cmdline.insert_str (c : Cmdline) (f : CmdFrag) : Except CmdlineError Cmdline :=
  let newLen := if c.frags.isEmpty then f.len else c.renderedLen + 1 + f.len
  if c.capacity < newLen then .error .CommandLineOverflow
  else .ok ⟨c.frags ++ [f], c.capacity⟩

/-! ### Resource registry -/

/-- `vmm_config::drive::BlockDeviceConfig` as used by the two source files;
the rate-limiter config is abstracted to a numeric description consumed by the
host oracle. -/
structure BlockDeviceConfig where
  drive_id : String
  path_on_host : String
  is_root_device : Bool
  partuuid : Option String
  is_read_only : Bool
  rate_limiter : Option Nat
deriving DecidableEq

/-- `BlockDeviceConfig::get_partuuid`. -/
def BlockDeviceConfig.get_partuuid (c : BlockDeviceConfig) : Option String :=
  c.partuuid

/-- `vmm_config::drive::BlockDeviceConfigs`: the ordered list of block
configs. -/
structure BlockDeviceConfigs where
  config_list : List BlockDeviceConfig
deriving DecidableEq

/-- Modelled from the spec: `BlockDeviceConfigs::has_root_block_device` —
whether some config has `is_root_device = true` (spec sections 3 and 4.3.1). -/
def BlockDeviceConfigs.has_root_block_device (b : BlockDeviceConfigs) : Bool :=
  b.config_list.any (fun c => c.is_root_device)

/-- Modelled from the spec: `BlockDeviceConfigs::has_partuuid_root` — whether
some root config carries a PARTUUID (spec section 4.3.1). -/
def BlockDeviceConfigs.has_partuuid_root (b : BlockDeviceConfigs) : Bool :=
  b.config_list.any (fun c => c.is_root_device && c.partuuid.isSome)

/-- Modelled from the spec: `BlockDeviceConfigs::has_read_only_root` — whether
some root config is read-only (spec section 4.3.1). -/
def BlockDeviceConfigs.has_read_only_root (b : BlockDeviceConfigs) : Bool :=
  b.config_list.any (fun c => c.is_root_device && c.is_read_only)

/-- Modelled from the spec: `BlockDeviceConfigs::get_index_of_drive_id` —
position of the config with the given id (`controller.rs:430-434` call
site). -/
def BlockDeviceConfigs.get_index_of_drive_id (b : BlockDeviceConfigs) (id : String) :
    Option Nat :=
  b.config_list.findIdx? (fun c => decide (c.drive_id = id))

/-- `vmm_config::net::NetworkInterfaceConfig` as used by `attach_net_devices`;
rate-limiter configs abstracted to numeric descriptions. -/
structure NetworkInterfaceConfig where
  iface_id : String
  guest_mac : Option String
  rx_rate_limiter : Option Nat
  tx_rate_limiter : Option Nat
  allow_mmds_requests : Bool
deriving DecidableEq

/-- `vmm_config::vsock::VsockDeviceConfig` as used by `attach_vsock_device`. -/
structure VsockDeviceConfig where
  vsock_id : String
  guest_cid : Nat
  uds_path : String
deriving DecidableEq

/-- `vmm_config::machine_config::VmConfig`: all fields individually optional
pre-boot (spec section 3). -/
structure VmConfig where
  vcpu_count : Option Nat
  mem_size_mib : Option Nat
  ht_enabled : Option Bool
  cpu_template : Option Nat
deriving DecidableEq

/-- `vmm_config::boot_source::BootConfig`: an owned kernel file handle
(abstracted to a numeric handle) plus the canonical command line. -/
structure BootConfig where
  kernel_file : Nat
  cmdline : Cmdline
deriving DecidableEq

/-- `resources::VmResources` — the Resource Registry (spec section 3). -/
structure VmResources where
  vm_config : VmConfig
  boot_source : Option BootConfig
  block : BlockDeviceConfigs
  network_interface : List NetworkInterfaceConfig
  vsock : Option VsockDeviceConfig
deriving DecidableEq

/-- `VcpuConfig` snapshot produced by `vcpu_config` (`builder.rs:295-303`). -/
structure VcpuConfig where
  vcpu_count : Nat
  ht_enabled : Bool
  cpu_template : Option Nat
deriving DecidableEq

/-! ### Device constants -/

/-- `devices::virtio::TYPE_NET` (virtio device id for network). -/
def TYPE_NET : Nat := 1

/-- `devices::virtio::TYPE_BLOCK` (virtio device id for block). -/
def TYPE_BLOCK : Nat := 2

/-- `devices::virtio::vsock::TYPE_VSOCK` (virtio device id for vsock). -/
def TYPE_VSOCK : Nat := 19

/-- `devices::virtio::block::SECTOR_SIZE`. -/
def SECTOR_SIZE : Nat := 512

/-- `device_manager::mmio::MMIO_CFG_SPACE_OFF` — offset of the device config
space inside the MMIO window. -/
def MMIO_CFG_SPACE_OFF : Nat := 0x100

/-- `devices::virtio::VIRTIO_MMIO_INT_CONFIG` — the configuration-change
interrupt bit. -/
def VIRTIO_MMIO_INT_CONFIG : Nat := 0x02

/-- Modelled from the spec: `FC_EXIT_CODE_OK` — "0 = OK" (spec section 6). -/
def FC_EXIT_CODE_OK : Nat := 0

/-- Modelled from the spec: `FC_EXIT_CODE_GENERIC_ERROR` — "1 = generic
error" (spec section 6). -/
def FC_EXIT_CODE_GENERIC_ERROR : Nat := 1

/-- Modelled from the spec: `devices::virtio::build_config_space(size)` — the
guest-visible block config space holding the capacity in `SECTOR_SIZE`
sectors, as eight little-endian bytes (spec section 4.4, scenario 6: the
remainder of a size that is not a multiple of the sector size is invisible to
the guest). -/
def build_config_space (size : Nat) : List Nat :=
  (List.range 8).map (fun i => size / SECTOR_SIZE / 256 ^ i % 256)

/-! ### VMM handle and bus devices -/

/-- Observable state of one bus device: whether its mutex is poisoned, the
config-space writes performed on it, and the interrupts injected. -/
structure BusDeviceState where
  poisoned : Bool
  cfgWrites : List (Nat × List Nat)
  interrupts : List Nat
deriving DecidableEq

/-- The `Vmm` handle as far as the verified claims observe it: the owned
kernel command line (the clone moved in by `build_microvm`) and the MMIO bus
devices keyed by `(device_type, id)`. -/
structure Vmm where
  kernel_cmdline : Cmdline
  busDevices : List ((Nat × String) × BusDeviceState)
deriving DecidableEq

/-- `Vmm::get_bus_device` — look up the bus device registered under
`(device_type, id)`. -/
def Vmm.get_bus_device (v : Vmm) (key : Nat × String) : Option BusDeviceState :=
  (v.busDevices.find? (fun p => decide (p.1 = key))).map (fun p => p.2)

/-- Replace the first entry registered under `key` in a bus-device table. -/
def replaceBusDevice (key : Nat × String) (d : BusDeviceState) :
    List ((Nat × String) × BusDeviceState) → List ((Nat × String) × BusDeviceState)
  | [] => []
  | p :: rest =>
    if p.1 = key then (key, d) :: rest else p :: replaceBusDevice key d rest

/-- Replace the first bus device registered under `key` (in-place mutation
under the bus lock in the source). -/
def Vmm.setBusDevice (v : Vmm) (key : Nat × String) (d : BusDeviceState) : Vmm :=
  ⟨v.kernel_cmdline, replaceBusDevice key d v.busDevices⟩

/-! ### Host environment

Every effect the two source files delegate to the host kernel or to sibling
crates is an oracle in this record.  `Except Nat _` results abstract
`io::Error` (or crate-specific error) payloads to numeric codes. -/

/-- Oracles for host effects. -/
structure HostEnv where
  /-- `OpenOptions::new().read(true).write(w).open(path)` for block files. -/
  openBlockFile : String → Bool → Except Nat Unit
  /-- `RateLimiterConfig::into_rate_limiter`. -/
  makeRateLimiter : Nat → Except Nat Unit
  /-- `devices::virtio::Block::new`, keyed by drive id. -/
  createBlockDevice : String → Except Nat Unit
  /-- `NetworkInterfaceConfig::open_tap`, keyed by interface id. -/
  openTap : String → Except TapError Unit
  /-- `devices::virtio::Net::new_with_tap`, keyed by interface id. -/
  createNetDevice : String → Except Nat Unit
  /-- `VsockUnixBackend::new`. -/
  vsockBackendNew : Except Nat Unit
  /-- `devices::virtio::Vsock::new`. -/
  vsockNew : Except Nat Unit
  /-- `MmioDevice::new`, keyed by device id. -/
  createMmioDevice : String → Except Nat Unit
  /-- `MMIODeviceManager::register_mmio_device` up to its command-line append:
  on success yields the rendered length of the `virtio_mmio.device` fragment
  it appends. -/
  registerMmio : String → Except MmioError Nat
  /-- `File::open` plus `seek(SeekFrom::End(0))` — the backing-file size probe
  of `rescan_block_device`. -/
  fileSizeAt : String → Except Nat Nat
  /-- `OpenOptions::new().read(true).write(w).open(path)` in
  `update_block_device_path`. -/
  openFileRW : String → Bool → Except Nat Unit
  /-- Whether `get_device_handler_by_device_id::<BlockEpollHandler>` finds the
  handler for a drive id. -/
  blockHandlerFound : String → Bool
  /-- Whether `BlockEpollHandler::update_disk_image` succeeds for a drive id. -/
  updateDiskImageOk : String → Bool
  /-- `GuestMemory::new` over the computed regions. -/
  guestMemoryNew : List (Nat × Nat) → Except GuestMemoryError Nat
  /-- `File::try_clone` on the kernel image. -/
  kernelTryClone : Except Nat Unit
  /-- `kernel::loader::load_kernel`; yields the entry address. -/
  loadKernel : Except Nat Nat
  /-- `TimerFd::new_custom`. -/
  timerFdNew : Except Nat Unit
  /-- `EpollContext::add_epollin_event` (its failure panics via `expect`). -/
  epollAddOk : Bool
  /-- `EventManager::new`. -/
  eventManagerNew : Except Nat Unit
  /-- `KvmContext::new`. -/
  kvmContextNew : Except Nat Unit
  /-- `Vm::new`. -/
  vmNew : Except Nat Unit
  /-- `Vm::memory_init`. -/
  memoryInit : Except Nat Unit
  /-- `PortIODeviceManager::new`. -/
  pioNew : Except Nat Unit
  /-- `Vmm::setup_interrupt_controller`. -/
  setupIrqchip : Except Nat Unit
  /-- `Vmm::attach_legacy_devices`. -/
  attachLegacy : Except Nat Unit
  /-- `Vmm::create_vcpus`. -/
  createVcpus : Except Nat Unit
  /-- `kernel::loader::load_cmdline` writing into guest memory. -/
  loadCmdlineToGuest : Except CmdlineError Unit
  /-- `Vmm::configure_system`. -/
  configureSystem : Except Nat Unit
  /-- `Vmm::register_events`. -/
  registerEvents : Except Nat Unit
  /-- `Vmm::start_vcpus`. -/
  startVcpus : Except Nat Unit

/-- Error-mapping helper (the Rust `map_err`). -/
def emapErr {ε ε2 α : Type} (f : ε → ε2) : Except ε α → Except ε2 α
  | .error e => .error (f e)
  | .ok a => .ok a

/-! ### Device attachment (`builder.rs:375-564`) -/

/-- `MMIODeviceManager::register_mmio_device`: pick a window, add the bus
mapping, allocate the IRQ, and append the `virtio_mmio.device` fragment to the
kernel command line (spec section 4.3); a failing append maps to the
device-manager's cmdline error. -/
def register_mmio_device (env : HostEnv) (v : Vmm) (type_id : Nat) (id : String) :
    Except MmioError Vmm :=
  match env.registerMmio id with
  | .error e => .error e
  | .ok fragLen =>
    match v.kernel_cmdline.insert_str (.virtioMmio fragLen) with
    | .error ce => .error (.Cmdline ce)
    | .ok c2 => .ok ⟨c2, v.busDevices ++ [((type_id, id), ⟨false, [], []⟩)]⟩

/-- `attach_mmio_device` (`builder.rs:376-391`): every registration failure is
wrapped as `StartMicrovmError::RegisterBlockDevice`, whatever the device
type. -/
def attach_mmio_device (env : HostEnv) (v : Vmm) (type_id : Nat) (id : String) :
    Except StartMicrovmError Vmm :=
  match register_mmio_device env v type_id id with
  | .error e => .error (.RegisterBlockDevice e)
  | .ok v2 => .ok v2

/-- The `.map(RateLimiterConfig::into_rate_limiter).transpose()` idiom used on
optional rate-limiter configs. -/
def materialize_rate_limiter (env : HostEnv) : Option Nat → Except Nat (Option Unit)
  | none => .ok none
  | some rc => emapErr id ((env.makeRateLimiter rc).map some)

/-- The `root=PARTUUID=<uuid>` insertion of `attach_block_devices`
(`builder.rs:423-439`), performed when this entry is the root device and
carries a PARTUUID. -/
def block_partuuid_step (d : BlockDeviceConfig) (v : Vmm) :
    Except StartMicrovmError Vmm :=
  if d.is_root_device && d.get_partuuid.isSome then
    match v.kernel_cmdline.insert_str (.rootPartuuid (d.get_partuuid.getD "")) with
    | .error ce => .error (StartMicrovmError.ofCmdlineError ce)
    | .ok c =>
      match c.insert_str (.flag d.is_read_only) with
      | .error ce => .error (StartMicrovmError.ofCmdlineError ce)
      | .ok c2 => .ok { v with kernel_cmdline := c2 }
  else .ok v

/-- Body of the per-drive loop of `attach_block_devices`
(`builder.rs:415-470`): open the backing file, insert the `root=PARTUUID`
fragments when this entry is the root device with a PARTUUID, materialize the
rate limiter, build the Block device, wrap it as MMIO, register. -/
def attach_one_block (env : HostEnv) (d : BlockDeviceConfig) (v : Vmm) :
    Except StartMicrovmError Vmm :=
  match env.openBlockFile d.path_on_host (!d.is_read_only) with
  | .error e => .error (.OpenBlockDevice e)
  | .ok _file =>
    match block_partuuid_step d v with
    | .error e => .error e
    | .ok v =>
      match materialize_rate_limiter env d.rate_limiter with
      | .error e => .error (.CreateRateLimiter e)
      | .ok _rl =>
        match env.createBlockDevice d.drive_id with
        | .error e => .error (.CreateBlockDevice e)
        | .ok _blk =>
          match env.createMmioDevice d.drive_id with
          | .error e => .error (.RegisterBlockDevice (.CreateMmioDevice e))
          | .ok _mdev => attach_mmio_device env v TYPE_BLOCK d.drive_id

/-- The `for drive_config in config_list` loop of `attach_block_devices`. -/
def attach_block_list (env : HostEnv) (ds : List BlockDeviceConfig) (v : Vmm) :
    Except StartMicrovmError Vmm :=
  match ds with
  | [] => .ok v
  | d :: rest =>
    match attach_one_block env d v with
    | .error e => .error e
    | .ok v2 => attach_block_list env rest v2

/-- The `root=/dev/vda` insertion of `attach_block_devices`
(`builder.rs:400-413`), performed when the registry has a root block device
without a PARTUUID. -/
def vda_root_step (res : VmResources) (v : Vmm) : Except StartMicrovmError Vmm :=
  if res.block.has_root_block_device && !res.block.has_partuuid_root then
    match v.kernel_cmdline.insert_str .rootDevVda with
    | .error ce => .error (StartMicrovmError.ofCmdlineError ce)
    | .ok c =>
      match c.insert_str (.flag res.block.has_read_only_root) with
      | .error ce => .error (StartMicrovmError.ofCmdlineError ce)
      | .ok c2 => .ok { v with kernel_cmdline := c2 }
  else .ok v

/-- `attach_block_devices` (`builder.rs:393-473`): when the registry holds a
root block device without a PARTUUID, insert `root=/dev/vda` and the `ro`/`rw`
flag first, then attach every configured drive in list order. -/
def attach_block_devices (env : HostEnv) (res : VmResources) (v : Vmm) :
    Except StartMicrovmError Vmm :=
  match vda_root_step res v with
  | .error e => .error e
  | .ok v => attach_block_list env res.block.config_list v

/-- Body of the per-interface loop of `attach_net_devices`
(`builder.rs:482-524`): materialize the rx and tx rate limiters, open the tap
(discarding the `TapError` in favour of `NetDeviceNotConfigured`), build the
Net device, wrap it as MMIO, register. -/
def attach_one_net (env : HostEnv) (cfg : NetworkInterfaceConfig) (v : Vmm) :
    Except StartMicrovmError Vmm :=
  match materialize_rate_limiter env cfg.rx_rate_limiter with
  | .error e => .error (.CreateRateLimiter e)
  | .ok _rx =>
    match materialize_rate_limiter env cfg.tx_rate_limiter with
    | .error e => .error (.CreateRateLimiter e)
    | .ok _tx =>
      match env.openTap cfg.iface_id with
      | .error _te => .error .NetDeviceNotConfigured
      | .ok _tap =>
        match env.createNetDevice cfg.iface_id with
        | .error e => .error (.CreateNetDevice e)
        | .ok _net =>
          match env.createMmioDevice cfg.iface_id with
          | .error e => .error (.RegisterNetDevice (.CreateMmioDevice e))
          | .ok _mdev => attach_mmio_device env v TYPE_NET cfg.iface_id

/-- The `for cfg in network_interface` loop of `attach_net_devices`. -/
def attach_net_list (env : HostEnv) (cfgs : List NetworkInterfaceConfig) (v : Vmm) :
    Except StartMicrovmError Vmm :=
  match cfgs with
  | [] => .ok v
  | cfg :: rest =>
    match attach_one_net env cfg v with
    | .error e => .error e
    | .ok v2 => attach_net_list env rest v2

/-- `attach_net_devices` (`builder.rs:475-527`). -/
def attach_net_devices (env : HostEnv) (res : VmResources) (v : Vmm) :
    Except StartMicrovmError Vmm :=
  attach_net_list env res.network_interface v

/-- `attach_vsock_device` (`builder.rs:529-564`). -/
def attach_vsock_device (env : HostEnv) (res : VmResources) (v : Vmm) :
    Except StartMicrovmError Vmm :=
  match res.vsock with
  | none => .ok v
  | some cfg =>
    match env.vsockBackendNew with
    | .error e => .error (.CreateVsockBackend e)
    | .ok _backend =>
      match env.vsockNew with
      | .error e => .error (.CreateVsockDevice e)
      | .ok _vsock =>
        match env.createMmioDevice cfg.vsock_id with
        | .error e => .error (.RegisterVsockDevice (.CreateMmioDevice e))
        | .ok _mdev => attach_mmio_device env v TYPE_VSOCK cfg.vsock_id

/-! ### `build_microvm` (`builder.rs:184-278`) -/

/-- Outcome of a fallible operation that can also panic (a Rust `unwrap` or
`expect` on the failing side). -/
inductive RunOutcome (α : Type)
  | panic
  | err (e : VmmActionError)
  | ok (a : α)
deriving DecidableEq

/-- Modelled from the spec: start of the x86_64 MMIO gap below 4 GiB (spec
section 4.1); the exact value is irrelevant to every claim. -/
def MMIO_GAP_START : Nat := 3584 * 1024 * 1024

/-- Modelled from the spec: end of the x86_64 MMIO gap. -/
def MMIO_GAP_END : Nat := 4 * 1024 * 1024 * 1024

/-- Modelled from the spec: `arch::arch_memory_regions` on x86_64 — "a low
region `[0, min(size, MMIO_GAP_START))` and, if size exceeds the gap, a high
region starting at `MMIO_GAP_END`" (spec section 4.1). -/
def arch_memory_regions (size : Nat) : List (Nat × Nat) :=
  if size ≤ MMIO_GAP_START then [(0, size)]
  else [(0, MMIO_GAP_START), (MMIO_GAP_END, size - MMIO_GAP_START)]

/-- `create_guest_memory` (`builder.rs:280-293`): a missing `mem_size_mib` is
the typed `GuestMemory(MemoryNotInitialized)` error. -/
def create_guest_memory (env : HostEnv) (res : VmResources) :
    Except StartMicrovmError Nat :=
  match res.vm_config.mem_size_mib with
  | none => .error (.GuestMemory .MemoryNotInitialized)
  | some mib =>
    emapErr StartMicrovmError.GuestMemory
      (env.guestMemoryNew (arch_memory_regions (mib <<< 20)))

/-- `vcpu_config` (`builder.rs:295-303`): the source unwraps `vcpu_count` and
`ht_enabled` unconditionally; `none` here is the panic of those unwraps. -/
def vcpu_config (res : VmResources) : Option VcpuConfig :=
  match res.vm_config.vcpu_count, res.vm_config.ht_enabled with
  | some n, some ht => some ⟨n, ht, res.vm_config.cpu_template⟩
  | _, _ => none

/-- `load_kernel` (`builder.rs:305-319`). -/
def load_kernel (env : HostEnv) (_boot_config : BootConfig) :
    Except StartMicrovmError Nat := do
  let _file ← emapErr (fun e => StartMicrovmError.Internal (.KernelFile e)) env.kernelTryClone
  emapErr StartMicrovmError.KernelLoader env.loadKernel

/-- `load_cmdline` (`builder.rs:321-331`): NUL-terminate the assembled command
line and write it into guest memory at `CMDLINE_START`; both steps report
`LoadCommandline`.  In this embedding the fragment list always renders to a
valid C string, so only the guest-memory write can fail. -/
def load_cmdline (env : HostEnv) (_v : Vmm) : Except StartMicrovmError Unit :=
  emapErr StartMicrovmError.LoadCommandline env.loadCmdlineToGuest

/-- `setup_metrics` (`builder.rs:333-348`); the epoll registration failure
panics through `expect`. -/
def setup_metrics (env : HostEnv) : RunOutcome Unit :=
  match env.timerFdNew with
  | .error e => .err (VmmActionError.ofStartMicrovmError (.Internal (.TimerFd e)))
  | .ok _ => if env.epollAddOk then .ok () else .panic

/-- `setup_event_manager` (`builder.rs:350-361`); the epoll cascade failure
panics through `expect`. -/
def setup_event_manager (env : HostEnv) : RunOutcome Unit :=
  match env.eventManagerNew with
  | .error e => .err (VmmActionError.ofStartMicrovmError (.Internal (.EventManager e)))
  | .ok _ => if env.epollAddOk then .ok () else .panic

/-- `setup_kvm_vm` (`builder.rs:363-373`). -/
def setup_kvm_vm (env : HostEnv) : Except StartMicrovmError Unit := do
  let _kvm ← emapErr (fun e => StartMicrovmError.Internal (.KvmContext e)) env.kvmContextNew
  let _vm ← emapErr (fun e => StartMicrovmError.Internal (.Vm e)) env.vmNew
  emapErr StartMicrovmError.ConfigureVm env.memoryInit

/-- `build_microvm` (`builder.rs:184-278`), x86_64 configuration.  The
registry is threaded through as state so that the frame property ("the
Registry is consumed by reference and never mutated") is a theorem rather
than a typing convention; the command line handed to the `Vmm` is the clone
taken at `builder.rs:200`. -/
def build_microvm (env : HostEnv) (res : VmResources) :
    RunOutcome Vmm × VmResources :=
  match res.boot_source with
  | none => (.err (VmmActionError.ofStartMicrovmError .MissingKernelConfig), res)
  | some boot_config =>
    match create_guest_memory env res with
    | .error e => (.err (VmmActionError.ofStartMicrovmError e), res)
    | .ok _guest_memory =>
      match vcpu_config res with
      | none => (.panic, res)
      | some _vcpu_cfg =>
        match load_kernel env boot_config with
        | .error e => (.err (VmmActionError.ofStartMicrovmError e), res)
        | .ok _entry_addr =>
          let kernel_cmdline := boot_config.cmdline
          match setup_metrics env with
          | .panic => (.panic, res)
          | .err e => (.err e, res)
          | .ok _ =>
            match setup_event_manager env with
            | .panic => (.panic, res)
            | .err e => (.err e, res)
            | .ok _ =>
              match setup_kvm_vm env with
              | .error e => (.err (VmmActionError.ofStartMicrovmError e), res)
              | .ok _ =>
                match env.pioNew with
                | .error e =>
                  (.err (VmmActionError.ofStartMicrovmError
                    (.Internal (.CreateLegacyDevice e))), res)
                | .ok _ =>
                  let vmm : Vmm := ⟨kernel_cmdline, []⟩
                  match env.setupIrqchip with
                  | .error e =>
                    (.err (VmmActionError.ofStartMicrovmError (.Internal (.Other e))), res)
                  | .ok _ =>
                    match env.attachLegacy with
                    | .error e =>
                      (.err (VmmActionError.ofStartMicrovmError (.Internal (.Other e))), res)
                    | .ok _ =>
                      match env.createVcpus with
                      | .error e =>
                        (.err (VmmActionError.ofStartMicrovmError (.Internal (.Other e))), res)
                      | .ok _ =>
                        match attach_block_devices env res vmm with
                        | .error e => (.err (VmmActionError.ofStartMicrovmError e), res)
                        | .ok vmm =>
                          match attach_net_devices env res vmm with
                          | .error e => (.err (VmmActionError.ofStartMicrovmError e), res)
                          | .ok vmm =>
                            match attach_vsock_device env res vmm with
                            | .error e => (.err (VmmActionError.ofStartMicrovmError e), res)
                            | .ok vmm =>
                              match load_cmdline env vmm with
                              | .error e => (.err (VmmActionError.ofStartMicrovmError e), res)
                              | .ok _ =>
                                match env.configureSystem with
                                | .error e =>
                                  (.err (VmmActionError.ofStartMicrovmError
                                    (.Internal (.Other e))), res)
                                | .ok _ =>
                                  match env.registerEvents with
                                  | .error e =>
                                    (.err (VmmActionError.ofStartMicrovmError
                                      (.Internal (.Other e))), res)
                                  | .ok _ =>
                                    match env.startVcpus with
                                    | .error e =>
                                      (.err (VmmActionError.ofStartMicrovmError
                                        (.Internal (.Other e))), res)
                                    | .ok _ => (.ok vmm, res)

/-! ### Action controller (`controller.rs`) -/

/-- Messages emitted through the logger by the controller. -/
inductive LogMsg
  | diskSizeNotMultiple (size : Nat) (sector : Nat)
deriving DecidableEq

/-- `VmmController`: the registry, the live `Vmm` handle, and the log
output. -/
structure VmmController where
  vm_resources : VmResources
  vmm : Vmm
  log : List LogMsg
deriving DecidableEq

/-- The warning step of `rescan_block_device` (`controller.rs:376-383`): log
when the new size is not a multiple of the sector size, mutating nothing
else. -/
def rescanWarnStep (st : VmmController) (new_size : Nat) : VmmController :=
  if new_size % SECTOR_SIZE ≠ 0 then
    { st with log := st.log ++ [.diskSizeNotMultiple new_size SECTOR_SIZE] }
  else st

/-- `VmmController::rescan_block_device` (`controller.rs:365-405`).  The
method takes `&mut self`; it is embedded as a state-passing function returning
the `UserResult` alongside the updated controller. -/
def VmmController.rescan_block_device (env : HostEnv) (st : VmmController)
    (drive_id : String) : Except VmmActionError Unit × VmmController :=
  match st.vm_resources.block.config_list.find? (fun c => decide (c.drive_id = drive_id)) with
  | none => (.error (VmmActionError.ofDriveError .InvalidBlockDeviceID), st)
  | some drive_config =>
    match env.fileSizeAt drive_config.path_on_host with
    | .error _ => (.error (VmmActionError.ofDriveError .BlockDeviceUpdateFailed), st)
    | .ok new_size =>
      match (rescanWarnStep st new_size).vmm.get_bus_device (TYPE_BLOCK, drive_id) with
      | some device =>
        if device.poisoned then
          (.error (VmmActionError.ofDriveError .BlockDeviceUpdateFailed),
           rescanWarnStep st new_size)
        else
          (.ok (),
           { rescanWarnStep st new_size with
               vmm :=
                 (rescanWarnStep st new_size).vmm.setBusDevice (TYPE_BLOCK, drive_id)
                   { device with
                       cfgWrites := device.cfgWrites ++
                         [(MMIO_CFG_SPACE_OFF, build_config_space new_size)],
                       interrupts := device.interrupts ++ [VIRTIO_MMIO_INT_CONFIG] } })
      | none =>
        (.error (VmmActionError.ofDriveError .BlockDeviceUpdateFailed),
         rescanWarnStep st new_size)

/-- `VmmController::update_drive_handler` (`controller.rs:407-421`). -/
def VmmController.update_drive_handler (env : HostEnv) (drive_id : String) :
    Except DriveError Unit :=
  if env.blockHandlerFound drive_id then
    if env.updateDiskImageOk drive_id then .ok () else .error .BlockDeviceUpdateFailed
  else .error .EpollHandlerNotFound

/-- Fallback config used to embed the panic-free `config_list[i]` indexing of
the source (the index always comes from `get_index_of_drive_id`, so the
fallback is never reached on the source's paths). -/
def dummyBlockConfig : BlockDeviceConfig :=
  ⟨"", "", false, none, false, none⟩

/-- The registry write of `update_block_device_path` (`controller.rs:445`):
store the new path into the config at index `i`. -/
def setBlockPath (st : VmmController) (i : Nat) (path : String) : VmmController :=
  { st with
      vm_resources :=
        { st.vm_resources with
            block :=
              ⟨st.vm_resources.block.config_list.set i
                { st.vm_resources.block.config_list.getD i dummyBlockConfig with
                    path_on_host := path }⟩ } }

/-- `VmmController::update_block_device_path` (`controller.rs:424-452`): find
the config, open the new path with the write permission the config declares,
write the new path into the registry, then run the live handler update and the
rescan — whose failures propagate *after* the registry was updated. -/
def VmmController.update_block_device_path (env : HostEnv) (st : VmmController)
    (drive_id : String) (path_on_host : String) :
    Except VmmActionError Unit × VmmController :=
  match st.vm_resources.block.get_index_of_drive_id drive_id with
  | none => (.error (VmmActionError.ofDriveError .InvalidBlockDeviceID), st)
  | some i =>
    match env.openFileRW path_on_host
        (!(st.vm_resources.block.config_list.getD i dummyBlockConfig).is_read_only) with
    | .error e => (.error (VmmActionError.ofDriveError (.CannotOpenBlockDevice e)), st)
    | .ok _disk_file =>
      match VmmController.update_drive_handler env drive_id with
      | .error e => (.error (VmmActionError.ofDriveError e), setBlockPath st i path_on_host)
      | .ok _ =>
        match VmmController.rescan_block_device env (setBlockPath st i path_on_host)
            drive_id with
        | (.error e, st2) => (.error e, st2)
        | (.ok _, st2) => (.ok (), st2)

/-! ### Event loop driver (`controller.rs:341-362`) -/

/-- `EventLoopExitReason` as consumed by `VmmController::run`. -/
inductive EventLoopExitReason
  | Break
  | ControlAction
deriving DecidableEq

/-- One outcome of `run_event_loop`: an error or an exit reason. -/
inductive LoopStep
  | loopErr (e : Nat)
  | loopOk (r : EventLoopExitReason)
deriving DecidableEq

/-- `VmmController::run` (`controller.rs:341-362`) as a trace semantics:
`steps` is the successive outcomes of `run_event_loop`, `handlerResults` the
successive results of `handle_control_event`.  The result is the exit code
passed to `stop`: `FC_EXIT_CODE_GENERIC_ERROR` on a wait error,
`FC_EXIT_CODE_OK` on `Break`, the handler's error code on a failed control
event; a successful control event continues the loop.  `none` means the finite
trace was exhausted with the loop still running. -/
def runExitCode : List LoopStep → List (Except Nat Unit) → Option Nat
  | [], _ => none
  | .loopErr _ :: _, _ => some FC_EXIT_CODE_GENERIC_ERROR
  | .loopOk .Break :: _, _ => some FC_EXIT_CODE_OK
  | .loopOk .ControlAction :: rest, handlerResults =>
    match handlerResults with
    | [] => none
    | .error code :: _ => some code
    | .ok _ :: hrest => runExitCode rest hrest

/-! ### Helper lemmas -/

theorem Cmdline.insert_str_ok_frags {c : Cmdline} {f : CmdFrag} {c2 : Cmdline}
    (h : c.insert_str f = .ok c2) : c2.frags = c.frags ++ [f] := by
  simp only [Cmdline.insert_str] at h
  split at h <;> split at h <;>
    first
      | exact Except.noConfusion h
      | (injection h with h2; subst h2; rfl)

theorem attach_mmio_device_error_shape {env : HostEnv} {v : Vmm} {t : Nat} {id : String}
    {e : StartMicrovmError} (h : attach_mmio_device env v t id = .error e) :
    ∃ me, e = .RegisterBlockDevice me := by
  cases hreg : register_mmio_device env v t id with
  | error e2 =>
    simp only [attach_mmio_device, hreg] at h
    injection h with h2
    exact ⟨e2, h2.symm⟩
  | ok v2 =>
    simp only [attach_mmio_device, hreg] at h
    exact Except.noConfusion h

theorem attach_mmio_device_ok_frags {env : HostEnv} {v : Vmm} {t : Nat} {id : String}
    {v2 : Vmm} (h : attach_mmio_device env v t id = .ok v2) :
    ∃ n, v2.kernel_cmdline.frags = v.kernel_cmdline.frags ++ [.virtioMmio n] := by
  cases hreg : env.registerMmio id with
  | error e2 =>
    simp only [attach_mmio_device, register_mmio_device, hreg] at h
    exact Except.noConfusion h
  | ok n =>
    cases hins : v.kernel_cmdline.insert_str (.virtioMmio n) with
    | error ce =>
      simp only [attach_mmio_device, register_mmio_device, hreg, hins] at h
      exact Except.noConfusion h
    | ok c2 =>
      simp only [attach_mmio_device, register_mmio_device, hreg, hins] at h
      injection h with h2
      subst h2
      exact ⟨n, Cmdline.insert_str_ok_frags hins⟩

/-- A host environment in which every oracle succeeds; base point for the
concrete witnesses. -/
def okEnv : HostEnv where
  openBlockFile := fun _ _ => .ok ()
  makeRateLimiter := fun _ => .ok ()
  createBlockDevice := fun _ => .ok ()
  openTap := fun _ => .ok ()
  createNetDevice := fun _ => .ok ()
  vsockBackendNew := .ok ()
  vsockNew := .ok ()
  createMmioDevice := fun _ => .ok ()
  registerMmio := fun _ => .ok 20
  fileSizeAt := fun _ => .ok 1024
  openFileRW := fun _ _ => .ok ()
  blockHandlerFound := fun _ => true
  updateDiskImageOk := fun _ => true
  guestMemoryNew := fun _ => .ok 0
  kernelTryClone := .ok ()
  loadKernel := .ok 7
  timerFdNew := .ok ()
  epollAddOk := true
  eventManagerNew := .ok ()
  kvmContextNew := .ok ()
  vmNew := .ok ()
  memoryInit := .ok ()
  pioNew := .ok ()
  setupIrqchip := .ok ()
  attachLegacy := .ok ()
  createVcpus := .ok ()
  loadCmdlineToGuest := .ok ()
  configureSystem := .ok ()
  registerEvents := .ok ()
  startVcpus := .ok ()

/-! ### Claim C3 -/

/-- C3: converting `StartMicrovmError::LoadCommandline(e)` into a
`VmmActionError` yields `ErrorKind::User` exactly when `e` is
`CommandLineOverflow`, and `ErrorKind::Internal` for every other cause. -/
theorem load_commandline_kind_user_iff_overflow (e : CmdlineError) :
    ((VmmActionError.ofStartMicrovmError (.LoadCommandline e)).kind = .User ↔
      e = .CommandLineOverflow) ∧
    ((VmmActionError.ofStartMicrovmError (.LoadCommandline e)).kind = .Internal ↔
      e ≠ .CommandLineOverflow) := by
  cases e <;> decide

/-! ### Claim C6 -/

/-- C6: `VmmController::run` loops until one of three outcomes and passes the
corresponding code to `stop`: an event-loop error yields
`FC_EXIT_CODE_GENERIC_ERROR`, `EventLoopExitReason::Break` yields
`FC_EXIT_CODE_OK`, a failed `handle_control_event` yields the exit code
carried in its error, and a successful control dispatch continues the loop. -/
theorem run_exit_code_cases (e code : Nat) (s : List LoopStep)
    (h : List (Except Nat Unit)) :
    runExitCode (.loopErr e :: s) h = some FC_EXIT_CODE_GENERIC_ERROR ∧
    runExitCode (.loopOk .Break :: s) h = some FC_EXIT_CODE_OK ∧
    runExitCode (.loopOk .ControlAction :: s) (.error code :: h) = some code ∧
    runExitCode (.loopOk .ControlAction :: s) (.ok () :: h) = runExitCode s h :=
  ⟨rfl, rfl, rfl, rfl⟩

/-! ### Claim C2 -/

/-- A single network interface with no rate limiters. -/
def cfgEth0 : NetworkInterfaceConfig := ⟨"eth0", none, none, none, false⟩

/-- Environment whose tap open fails with `IoctlError`. -/
def tapFailEnv : HostEnv := { okEnv with openTap := fun _ => .error (.IoctlError 5) }

/-- A `Vmm` with an empty command line of standard capacity. -/
def emptyCmdVmm : Vmm := ⟨⟨[], 4096⟩, []⟩

/-- A registry holding exactly the single network interface `cfgEth0`. -/
def resNetOnly : VmResources :=
  ⟨⟨some 1, some 128, some false, none⟩, none, ⟨[]⟩, [cfgEth0], none⟩

/-- C2 counterexample: the tap open fails with `TapError::IoctlError`, which
the section-7 taxonomy classifies as Internal, yet the resulting
`NetDeviceNotConfigured` start error converts to `ErrorKind::User` — the
`TapError` is discarded at `builder.rs:503` and plays no role in the kind. -/
theorem attach_net_tap_kind_counterexample :
    tapFailEnv.openTap cfgEth0.iface_id = .error (.IoctlError 5) ∧
    attach_net_devices tapFailEnv resNetOnly emptyCmdVmm =
      .error .NetDeviceNotConfigured ∧
    (VmmActionError.ofStartMicrovmError .NetDeviceNotConfigured).kind = .User ∧
    (VmmActionError.ofStartMicrovmError .NetDeviceNotConfigured).kind ≠ .Internal :=
  ⟨rfl, rfl, rfl, by decide⟩

/-- The User/Internal classification that spec section 7 assigns to the tap
error causes ("Tap `OpenTun`, `CreateTap`, `InvalidIfname` are User;
`IoctlError` and `CreateSocket` are Internal"). -/
def claimedTapKind : TapError → ErrorKind
  | .OpenTun _ | .CreateTap _ | .InvalidIfname => .User
  | .IoctlError _ | .CreateSocket _ => .Internal

/-- C2 amended: a failing tap open makes `attach_net_devices` fail with
`NetDeviceNotConfigured`, whose `VmmActionError` kind is always `User`
regardless of the underlying `TapError`; the section-7 tap taxonomy instead
governs the conversion of `NetworkInterfaceError::OpenTap`
(`controller.rs:211-216`), which the start path never reaches. -/
theorem attach_net_tap_failure_always_user (env : HostEnv) (res : VmResources)
    (cfg : NetworkInterfaceConfig) (v : Vmm) (te te2 : TapError)
    (hres : res.network_interface = [cfg])
    (hrx : cfg.rx_rate_limiter = none) (htx : cfg.tx_rate_limiter = none)
    (htap : env.openTap cfg.iface_id = .error te) :
    attach_net_devices env res v = .error .NetDeviceNotConfigured ∧
    (VmmActionError.ofStartMicrovmError .NetDeviceNotConfigured).kind = .User ∧
    (VmmActionError.ofNetworkInterfaceError (.OpenTap te2)).kind = claimedTapKind te2 := by
  refine ⟨?_, rfl, ?_⟩
  · simp only [attach_net_devices, hres, attach_net_list, attach_one_net,
      hrx, htx, materialize_rate_limiter, htap]
  · cases te2 <;> rfl

/-- Witness for the amended C2 theorem at concrete inputs. -/
theorem attach_net_tap_failure_always_user_witness :
    attach_net_devices tapFailEnv resNetOnly emptyCmdVmm =
      .error .NetDeviceNotConfigured ∧
    (VmmActionError.ofStartMicrovmError .NetDeviceNotConfigured).kind = .User ∧
    (VmmActionError.ofNetworkInterfaceError (.OpenTap (.CreateSocket 3))).kind =
      claimedTapKind (.CreateSocket 3) :=
  attach_net_tap_failure_always_user tapFailEnv resNetOnly cfgEth0 emptyCmdVmm
    (.IoctlError 5) (.CreateSocket 3) rfl rfl rfl rfl

/-! ### Claim C9 -/

theorem attach_one_net_register_net {env : HostEnv} {cfg : NetworkInterfaceConfig}
    {v : Vmm} {me : MmioError}
    (h : attach_one_net env cfg v = .error (.RegisterNetDevice me)) :
    ∃ x, me = .CreateMmioDevice x := by
  cases h1 : materialize_rate_limiter env cfg.rx_rate_limiter with
  | error e => simp [attach_one_net, h1] at h
  | ok rx =>
    cases h2 : materialize_rate_limiter env cfg.tx_rate_limiter with
    | error e => simp [attach_one_net, h1, h2] at h
    | ok tx =>
      cases h3 : env.openTap cfg.iface_id with
      | error te => simp [attach_one_net, h1, h2, h3] at h
      | ok tap =>
        cases h4 : env.createNetDevice cfg.iface_id with
        | error e => simp [attach_one_net, h1, h2, h3, h4] at h
        | ok net =>
          cases h5 : env.createMmioDevice cfg.iface_id with
          | error e =>
            simp [attach_one_net, h1, h2, h3, h4, h5] at h
            exact ⟨e, h.symm⟩
          | ok mdev =>
            simp only [attach_one_net, h1, h2, h3, h4, h5] at h
            obtain ⟨me2, hme⟩ := attach_mmio_device_error_shape h
            exact StartMicrovmError.noConfusion hme

theorem attach_net_list_register_net {env : HostEnv}
    {cfgs : List NetworkInterfaceConfig} {v : Vmm} {me : MmioError}
    (h : attach_net_list env cfgs v = .error (.RegisterNetDevice me)) :
    ∃ x, me = .CreateMmioDevice x := by
  induction cfgs generalizing v with
  | nil => simp [attach_net_list] at h
  | cons cfg rest ih =>
    cases h1 : attach_one_net env cfg v with
    | error e =>
      simp only [attach_net_list, h1] at h
      injection h with h2
      exact attach_one_net_register_net (h2 ▸ h1)
    | ok v2 =>
      simp only [attach_net_list, h1] at h
      exact ih h

theorem attach_vsock_register_vsock {env : HostEnv} {res : VmResources} {v : Vmm}
    {mv : MmioError}
    (h : attach_vsock_device env res v = .error (.RegisterVsockDevice mv)) :
    ∃ x, mv = .CreateMmioDevice x := by
  cases hv : res.vsock with
  | none => simp [attach_vsock_device, hv] at h
  | some cfg =>
    cases h1 : env.vsockBackendNew with
    | error e => simp [attach_vsock_device, hv, h1] at h
    | ok b =>
      cases h2 : env.vsockNew with
      | error e => simp [attach_vsock_device, hv, h1, h2] at h
      | ok vs =>
        cases h3 : env.createMmioDevice cfg.vsock_id with
        | error e =>
          simp [attach_vsock_device, hv, h1, h2, h3] at h
          exact ⟨e, h.symm⟩
        | ok mdev =>
          simp only [attach_vsock_device, hv, h1, h2, h3] at h
          obtain ⟨me2, hme⟩ := attach_mmio_device_error_shape h
          exact StartMicrovmError.noConfusion hme

/-- C9: every failure of the registration step inside `attach_mmio_device` is
reported as `RegisterBlockDevice` regardless of the device's type, and the
`RegisterNetDevice` / `RegisterVsockDevice` variants can only originate from
`MmioDevice::new` construction failures. -/
theorem attach_register_error_taxonomy (env : HostEnv) (res : VmResources)
    (v : Vmm) (t : Nat) (id : String) (e : StartMicrovmError) (me mv : MmioError) :
    (attach_mmio_device env v t id = .error e →
      ∃ me2, e = .RegisterBlockDevice me2) ∧
    (attach_net_devices env res v = .error (.RegisterNetDevice me) →
      ∃ x, me = .CreateMmioDevice x) ∧
    (attach_vsock_device env res v = .error (.RegisterVsockDevice mv) →
      ∃ x, mv = .CreateMmioDevice x) :=
  ⟨fun h => attach_mmio_device_error_shape h,
   fun h => attach_net_list_register_net h,
   fun h => attach_vsock_register_vsock h⟩

/-- Environment whose MMIO registration fails. -/
def regFailEnv : HostEnv := { okEnv with registerMmio := fun _ => .error .IrqsExhausted }

/-- Environment whose `MmioDevice::new` fails. -/
def mmioCreateFailEnv : HostEnv := { okEnv with createMmioDevice := fun _ => .error 7 }

/-- A registry holding only a vsock device. -/
def resVsockOnly : VmResources :=
  ⟨⟨some 1, some 128, some false, none⟩, none, ⟨[]⟩, [], some ⟨"vs0", 3, "uds"⟩⟩

/-- Witness for the C9 theorem at concrete inputs. -/
theorem attach_register_error_taxonomy_witness :
    (∃ me2, StartMicrovmError.RegisterBlockDevice .IrqsExhausted =
      .RegisterBlockDevice me2) ∧
    (∃ x, MmioError.CreateMmioDevice 7 = .CreateMmioDevice x) ∧
    (∃ x, MmioError.CreateMmioDevice 7 = .CreateMmioDevice x) :=
  ⟨(attach_register_error_taxonomy regFailEnv resNetOnly emptyCmdVmm TYPE_BLOCK "d"
      (.RegisterBlockDevice .IrqsExhausted) (.CreateMmioDevice 7)
      (.CreateMmioDevice 7)).1 rfl,
   (attach_register_error_taxonomy mmioCreateFailEnv resNetOnly emptyCmdVmm TYPE_BLOCK "d"
      (.RegisterBlockDevice .IrqsExhausted) (.CreateMmioDevice 7)
      (.CreateMmioDevice 7)).2.1 rfl,
   (attach_register_error_taxonomy mmioCreateFailEnv resVsockOnly emptyCmdVmm TYPE_BLOCK "d"
      (.RegisterBlockDevice .IrqsExhausted) (.CreateMmioDevice 7)
      (.CreateMmioDevice 7)).2.2 rfl⟩

/-! ### Claim C10 -/

/-- C10: `vcpu_config` unwraps `vcpu_count` and `ht_enabled` unconditionally
(either being absent is the panic, modelled as `none`), and under the
precondition that both are present the unwraps cannot panic; by contrast a
missing `mem_size_mib` makes `build_microvm` return the typed
`GuestMemory(MemoryNotInitialized)` error rather than panic. -/
theorem vcpu_config_total_and_memory_error_typed (env : HostEnv)
    (res : VmResources) (boot : BootConfig) :
    (res.vm_config.vcpu_count.isSome = true →
      res.vm_config.ht_enabled.isSome = true → (vcpu_config res).isSome = true) ∧
    (res.vm_config.vcpu_count = none → vcpu_config res = none) ∧
    (res.vm_config.ht_enabled = none → vcpu_config res = none) ∧
    (res.boot_source = some boot → res.vm_config.mem_size_mib = none →
      (build_microvm env res).1 =
        .err (VmmActionError.ofStartMicrovmError (.GuestMemory .MemoryNotInitialized))) := by
  refine ⟨?_, ?_, ?_, ?_⟩
  · intro h1 h2
    cases hc : res.vm_config.vcpu_count with
    | none => rw [hc] at h1; simp at h1
    | some n =>
      cases hh : res.vm_config.ht_enabled with
      | none => rw [hh] at h2; simp at h2
      | some b => simp [vcpu_config, hc, hh]
  · intro h1
    cases hh : res.vm_config.ht_enabled <;> simp [vcpu_config, h1, hh]
  · intro h1
    cases hc : res.vm_config.vcpu_count <;> simp [vcpu_config, h1, hc]
  · intro hboot hmem
    simp only [build_microvm, hboot, create_guest_memory, hmem]

/-- A complete machine config. -/
def resFull : VmResources :=
  ⟨⟨some 2, some 128, some true, none⟩, none, ⟨[]⟩, [], none⟩

/-- Machine config with `vcpu_count` absent. -/
def resNoVcpu : VmResources :=
  ⟨⟨none, some 128, some true, none⟩, none, ⟨[]⟩, [], none⟩

/-- Machine config with `ht_enabled` absent. -/
def resNoHt : VmResources :=
  ⟨⟨some 2, some 128, none, none⟩, none, ⟨[]⟩, [], none⟩

/-- A boot source with an empty command line. -/
def boot0 : BootConfig := ⟨0, ⟨[], 4096⟩⟩

/-- Registry with a boot source but no `mem_size_mib`. -/
def resNoMem : VmResources :=
  ⟨⟨some 2, none, some true, none⟩, some boot0, ⟨[]⟩, [], none⟩

/-- Witness for the C10 theorem at concrete inputs. -/
theorem vcpu_config_total_and_memory_error_typed_witness :
    (vcpu_config resFull).isSome = true ∧
    vcpu_config resNoVcpu = none ∧
    vcpu_config resNoHt = none ∧
    (build_microvm okEnv resNoMem).1 =
      .err (VmmActionError.ofStartMicrovmError (.GuestMemory .MemoryNotInitialized)) :=
  ⟨(vcpu_config_total_and_memory_error_typed okEnv resFull boot0).1 rfl rfl,
   (vcpu_config_total_and_memory_error_typed okEnv resNoVcpu boot0).2.1 rfl,
   (vcpu_config_total_and_memory_error_typed okEnv resNoHt boot0).2.2.1 rfl,
   (vcpu_config_total_and_memory_error_typed okEnv resNoMem boot0).2.2.2 rfl rfl⟩

/-! ### Claim C4 -/

theorem find_replaceBusDevice {l : List ((Nat × String) × BusDeviceState)}
    {key : Nat × String} {p0 : (Nat × String) × BusDeviceState}
    (h : l.find? (fun p => decide (p.1 = key)) = some p0) (d : BusDeviceState) :
    (replaceBusDevice key d l).find? (fun p => decide (p.1 = key)) = some (key, d) := by
  induction l with
  | nil => simp at h
  | cons p rest ih =>
    by_cases hp : p.1 = key
    · have hrep : replaceBusDevice key d (p :: rest) = (key, d) :: rest := by
        simp [replaceBusDevice, hp]
      rw [hrep, List.find?_cons_of_pos]
      simp
    · have hrep : replaceBusDevice key d (p :: rest) =
          p :: replaceBusDevice key d rest := by
        simp [replaceBusDevice, hp]
      rw [List.find?_cons_of_neg _ (by simp [hp])] at h
      rw [hrep, List.find?_cons_of_neg _ (by simp [hp])]
      exact ih h

theorem Vmm.get_bus_device_set {v : Vmm} {key : Nat × String} {d0 : BusDeviceState}
    (h : v.get_bus_device key = some d0) (d : BusDeviceState) :
    (v.setBusDevice key d).get_bus_device key = some d := by
  unfold Vmm.get_bus_device at h ⊢
  obtain ⟨p0, hp0, -⟩ := Option.map_eq_some'.mp h
  unfold Vmm.setBusDevice
  rw [find_replaceBusDevice hp0 d]
  rfl

theorem rescanWarnStep_vmm (st : VmmController) (n : Nat) :
    (rescanWarnStep st n).vmm = st.vmm := by
  unfold rescanWarnStep
  split <;> rfl

theorem rescanWarnStep_vm_resources (st : VmmController) (n : Nat) :
    (rescanWarnStep st n).vm_resources = st.vm_resources := by
  unfold rescanWarnStep
  split <;> rfl

theorem rescan_preserves_vm_resources (env : HostEnv) (st : VmmController)
    (id : String) :
    (VmmController.rescan_block_device env st id).2.vm_resources = st.vm_resources := by
  unfold VmmController.rescan_block_device
  split
  · rfl
  · split
    · rfl
    · split
      · split
        · exact rescanWarnStep_vm_resources st _
        · exact rescanWarnStep_vm_resources st _
      · exact rescanWarnStep_vm_resources st _

/-- C4: a `drive_id` absent from the registry makes `rescan_block_device`
fail with `DriveConfig(User, InvalidBlockDeviceID)`; for a present drive whose
bus device is found, a backing size that is not a multiple of `SECTOR_SIZE`
does not fail: a warning is logged, the new size's config space is written at
`MMIO_CFG_SPACE_OFF`, and a `VIRTIO_MMIO_INT_CONFIG` interrupt is injected. -/
theorem rescan_block_device_lookup_and_odd_size (env : HostEnv)
    (st : VmmController) (drive_id : String) (cfg : BlockDeviceConfig) (n : Nat)
    (dev : BusDeviceState) :
    ((∀ c ∈ st.vm_resources.block.config_list, ¬c.drive_id = drive_id) →
      VmmController.rescan_block_device env st drive_id =
        (.error (.DriveConfig .User .InvalidBlockDeviceID), st)) ∧
    (st.vm_resources.block.config_list.find?
        (fun c => decide (c.drive_id = drive_id)) = some cfg →
     env.fileSizeAt cfg.path_on_host = .ok n →
     n % SECTOR_SIZE ≠ 0 →
     st.vmm.get_bus_device (TYPE_BLOCK, drive_id) = some dev →
     dev.poisoned = false →
       (VmmController.rescan_block_device env st drive_id).1 = .ok () ∧
       (VmmController.rescan_block_device env st drive_id).2.log =
         st.log ++ [.diskSizeNotMultiple n SECTOR_SIZE] ∧
       (VmmController.rescan_block_device env st drive_id).2.vmm.get_bus_device
           (TYPE_BLOCK, drive_id) =
         some { dev with
                 cfgWrites := dev.cfgWrites ++
                   [(MMIO_CFG_SPACE_OFF, build_config_space n)],
                 interrupts := dev.interrupts ++ [VIRTIO_MMIO_INT_CONFIG] }) := by
  constructor
  · intro hnone
    have hfind : st.vm_resources.block.config_list.find?
        (fun c => decide (c.drive_id = drive_id)) = none := by
      rw [List.find?_eq_none]
      intro c hc
      simp [hnone c hc]
    simp [VmmController.rescan_block_device, hfind, VmmActionError.ofDriveError]
  · intro hfind hsize hodd hdev hpois
    have hdev2 : (rescanWarnStep st n).vmm.get_bus_device (TYPE_BLOCK, drive_id) =
        some dev := by rw [rescanWarnStep_vmm]; exact hdev
    have hres : VmmController.rescan_block_device env st drive_id =
        (.ok (),
         { rescanWarnStep st n with
             vmm :=
               (rescanWarnStep st n).vmm.setBusDevice (TYPE_BLOCK, drive_id)
                 { dev with
                     cfgWrites := dev.cfgWrites ++
                       [(MMIO_CFG_SPACE_OFF, build_config_space n)],
                     interrupts := dev.interrupts ++ [VIRTIO_MMIO_INT_CONFIG] } }) := by
      simp [VmmController.rescan_block_device, hfind, hsize, hdev2, hpois]
    refine ⟨by rw [hres], ?_, ?_⟩
    · rw [hres]
      show (rescanWarnStep st n).log = _
      unfold rescanWarnStep
      rw [if_pos hodd]
    · rw [hres]
      show ((rescanWarnStep st n).vmm.setBusDevice _ _).get_bus_device _ = _
      exact Vmm.get_bus_device_set hdev2 _

/-- Config list and bus device for the rescan witness. -/
def blkCfgA : BlockDeviceConfig := ⟨"rootfs", "imgpath", true, none, false, none⟩

/-- An unpoisoned bus device with no recorded activity. -/
def dev0 : BusDeviceState := ⟨false, [], []⟩

/-- Controller state holding the single drive `rootfs` and its bus device. -/
def stA : VmmController :=
  ⟨⟨⟨some 1, some 128, some false, none⟩, none, ⟨[blkCfgA]⟩, [], none⟩,
   ⟨⟨[], 4096⟩, [((TYPE_BLOCK, "rootfs"), dev0)]⟩, []⟩

/-- Environment whose size probe yields `SECTOR_SIZE * 3 + 17`. -/
def oddSizeEnv : HostEnv :=
  { okEnv with fileSizeAt := fun _ => .ok (SECTOR_SIZE * 3 + 17) }

/-- Witness for the C4 theorem at concrete inputs. -/
theorem rescan_block_device_lookup_and_odd_size_witness :
    VmmController.rescan_block_device oddSizeEnv stA "nope" =
      (.error (.DriveConfig .User .InvalidBlockDeviceID), stA) ∧
    ((VmmController.rescan_block_device oddSizeEnv stA "rootfs").1 = .ok () ∧
     (VmmController.rescan_block_device oddSizeEnv stA "rootfs").2.log =
       stA.log ++ [.diskSizeNotMultiple (SECTOR_SIZE * 3 + 17) SECTOR_SIZE] ∧
     (VmmController.rescan_block_device oddSizeEnv stA "rootfs").2.vmm.get_bus_device
         (TYPE_BLOCK, "rootfs") =
       some { dev0 with
               cfgWrites := dev0.cfgWrites ++
                 [(MMIO_CFG_SPACE_OFF, build_config_space (SECTOR_SIZE * 3 + 17))],
               interrupts := dev0.interrupts ++ [VIRTIO_MMIO_INT_CONFIG] }) :=
  ⟨(rescan_block_device_lookup_and_odd_size oddSizeEnv stA "nope" blkCfgA 0 dev0).1
     (by decide),
   (rescan_block_device_lookup_and_odd_size oddSizeEnv stA "rootfs" blkCfgA
      (SECTOR_SIZE * 3 + 17) dev0).2 rfl rfl (by decide) rfl rfl⟩

/-! ### Claim C5 -/

theorem setBlockPath_config_list (st : VmmController) (i : Nat) (path : String) :
    (setBlockPath st i path).vm_resources.block.config_list =
      st.vm_resources.block.config_list.set i
        { st.vm_resources.block.config_list.getD i dummyBlockConfig with
            path_on_host := path } := rfl

/-- C5: `update_block_device_path` on a present drive opens the new path with
write permission equal to the negation of the config's `is_read_only` and then
stores the new path into the registry config; on an absent drive it fails with
`DriveConfig(User, InvalidBlockDeviceID)` and changes nothing, and when the
open (with exactly that permission) fails it reports `CannotOpenBlockDevice`
and changes nothing. -/
theorem update_block_device_path_spec (env : HostEnv) (st : VmmController)
    (drive_id new_path : String) (i e : Nat) :
    (st.vm_resources.block.get_index_of_drive_id drive_id = none →
      VmmController.update_block_device_path env st drive_id new_path =
        (.error (.DriveConfig .User .InvalidBlockDeviceID), st)) ∧
    (st.vm_resources.block.get_index_of_drive_id drive_id = some i →
     env.openFileRW new_path
        (!(st.vm_resources.block.config_list.getD i dummyBlockConfig).is_read_only) =
       .ok () →
      (VmmController.update_block_device_path env st drive_id
          new_path).2.vm_resources.block.config_list =
        st.vm_resources.block.config_list.set i
          { st.vm_resources.block.config_list.getD i dummyBlockConfig with
              path_on_host := new_path }) ∧
    (st.vm_resources.block.get_index_of_drive_id drive_id = some i →
     env.openFileRW new_path
        (!(st.vm_resources.block.config_list.getD i dummyBlockConfig).is_read_only) =
       .error e →
      VmmController.update_block_device_path env st drive_id new_path =
        (.error (.DriveConfig .User (.CannotOpenBlockDevice e)), st)) := by
  refine ⟨?_, ?_, ?_⟩
  · intro hidx
    simp [VmmController.update_block_device_path, hidx, VmmActionError.ofDriveError]
  · intro hidx hopen
    simp only [VmmController.update_block_device_path, hidx, hopen]
    cases hh : VmmController.update_drive_handler env drive_id with
    | error e2 => exact setBlockPath_config_list st i new_path
    | ok u =>
      cases hr : VmmController.rescan_block_device env (setBlockPath st i new_path)
          drive_id with
      | mk r st2 =>
        have hpres := rescan_preserves_vm_resources env (setBlockPath st i new_path)
          drive_id
        rw [hr] at hpres
        cases r with
        | error e2 =>
          show st2.vm_resources.block.config_list = _
          rw [hpres]
          exact setBlockPath_config_list st i new_path
        | ok u2 =>
          show st2.vm_resources.block.config_list = _
          rw [hpres]
          exact setBlockPath_config_list st i new_path
  · intro hidx hopen
    simp only [VmmController.update_block_device_path, hidx, hopen,
      VmmActionError.ofDriveError]

/-- Environment whose file open for the path update fails. -/
def openFailEnv : HostEnv := { okEnv with openFileRW := fun _ _ => .error 13 }

/-- Witness for the C5 theorem at concrete inputs. -/
theorem update_block_device_path_spec_witness :
    (VmmController.update_block_device_path okEnv stA "nope" "newimg" =
      (.error (.DriveConfig .User .InvalidBlockDeviceID), stA)) ∧
    ((VmmController.update_block_device_path okEnv stA "rootfs"
        "newimg").2.vm_resources.block.config_list =
      stA.vm_resources.block.config_list.set 0
        { stA.vm_resources.block.config_list.getD 0 dummyBlockConfig with
            path_on_host := "newimg" }) ∧
    (VmmController.update_block_device_path openFailEnv stA "rootfs" "newimg" =
      (.error (.DriveConfig .User (.CannotOpenBlockDevice 13)), stA)) :=
  ⟨(update_block_device_path_spec okEnv stA "nope" "newimg" 0 13).1 rfl,
   (update_block_device_path_spec okEnv stA "rootfs" "newimg" 0 13).2.1 rfl rfl,
   (update_block_device_path_spec openFailEnv stA "rootfs" "newimg" 0 13).2.2 rfl rfl⟩

/-! ### Claim C8 -/

/-- C8: the registry write of `update_block_device_path` happens before the
live handler update and the rescan, so every late failure — the handler lookup
failing (`EpollHandlerNotFound`), `update_disk_image` failing
(`BlockDeviceUpdateFailed`), or `rescan_block_device` failing with any error —
returns that error while the registry's `path_on_host` already holds the new
path: the write is not rolled back. -/
theorem update_block_device_path_no_rollback (env : HostEnv) (st : VmmController)
    (drive_id new_path : String) (i : Nat) (e2 : VmmActionError)
    (st2 : VmmController)
    (hidx : st.vm_resources.block.get_index_of_drive_id drive_id = some i)
    (hopen : env.openFileRW new_path
        (!(st.vm_resources.block.config_list.getD i dummyBlockConfig).is_read_only) =
      .ok ()) :
    (env.blockHandlerFound drive_id = false →
      (VmmController.update_block_device_path env st drive_id new_path).1 =
        .error (.DriveConfig .User .EpollHandlerNotFound) ∧
      (VmmController.update_block_device_path env st drive_id
          new_path).2.vm_resources.block.config_list =
        st.vm_resources.block.config_list.set i
          { st.vm_resources.block.config_list.getD i dummyBlockConfig with
              path_on_host := new_path }) ∧
    (env.blockHandlerFound drive_id = true →
     env.updateDiskImageOk drive_id = false →
      (VmmController.update_block_device_path env st drive_id new_path).1 =
        .error (.DriveConfig .User .BlockDeviceUpdateFailed) ∧
      (VmmController.update_block_device_path env st drive_id
          new_path).2.vm_resources.block.config_list =
        st.vm_resources.block.config_list.set i
          { st.vm_resources.block.config_list.getD i dummyBlockConfig with
              path_on_host := new_path }) ∧
    (VmmController.update_drive_handler env drive_id = .ok () →
     VmmController.rescan_block_device env (setBlockPath st i new_path) drive_id =
       (.error e2, st2) →
      (VmmController.update_block_device_path env st drive_id new_path).1 =
        .error e2 ∧
      (VmmController.update_block_device_path env st drive_id
          new_path).2.vm_resources.block.config_list =
        st.vm_resources.block.config_list.set i
          { st.vm_resources.block.config_list.getD i dummyBlockConfig with
              path_on_host := new_path }) := by
  refine ⟨?_, ?_, ?_⟩
  · intro hhandler
    have hh : VmmController.update_drive_handler env drive_id =
        .error .EpollHandlerNotFound := by
      simp [VmmController.update_drive_handler, hhandler]
    simp only [VmmController.update_block_device_path, hidx, hopen, hh]
    exact ⟨rfl, setBlockPath_config_list st i new_path⟩
  · intro hhandler hdisk
    have hh : VmmController.update_drive_handler env drive_id =
        .error .BlockDeviceUpdateFailed := by
      simp [VmmController.update_drive_handler, hhandler, hdisk]
    simp only [VmmController.update_block_device_path, hidx, hopen, hh]
    exact ⟨rfl, setBlockPath_config_list st i new_path⟩
  · intro hh hr
    have hpres := rescan_preserves_vm_resources env (setBlockPath st i new_path)
      drive_id
    rw [hr] at hpres
    constructor
    · simp only [VmmController.update_block_device_path, hidx, hopen, hh, hr]
    · simp only [VmmController.update_block_device_path, hidx, hopen, hh, hr]
      show st2.vm_resources.block.config_list = _
      rw [hpres]
      exact setBlockPath_config_list st i new_path

/-- Environment in which the block epoll handler is missing. -/
def handlerMissingEnv : HostEnv := { okEnv with blockHandlerFound := fun _ => false }

/-- Environment in which `update_disk_image` fails. -/
def diskUpdateFailEnv : HostEnv := { okEnv with updateDiskImageOk := fun _ => false }

/-- Environment in which the rescan's size probe fails, so the rescan
triggered after a path update fails. -/
def rescanFailEnv : HostEnv := { okEnv with fileSizeAt := fun _ => .error 2 }

/-- Witness for the C8 theorem at concrete inputs, one per failure mode. -/
theorem update_block_device_path_no_rollback_witness :
    ((VmmController.update_block_device_path handlerMissingEnv stA "rootfs"
        "newimg").1 = .error (.DriveConfig .User .EpollHandlerNotFound) ∧
     (VmmController.update_block_device_path handlerMissingEnv stA "rootfs"
        "newimg").2.vm_resources.block.config_list =
       stA.vm_resources.block.config_list.set 0
         { stA.vm_resources.block.config_list.getD 0 dummyBlockConfig with
             path_on_host := "newimg" }) ∧
    ((VmmController.update_block_device_path diskUpdateFailEnv stA "rootfs"
        "newimg").1 = .error (.DriveConfig .User .BlockDeviceUpdateFailed) ∧
     (VmmController.update_block_device_path diskUpdateFailEnv stA "rootfs"
        "newimg").2.vm_resources.block.config_list =
       stA.vm_resources.block.config_list.set 0
         { stA.vm_resources.block.config_list.getD 0 dummyBlockConfig with
             path_on_host := "newimg" }) ∧
    ((VmmController.update_block_device_path rescanFailEnv stA "rootfs"
        "newimg").1 = .error (.DriveConfig .User .BlockDeviceUpdateFailed) ∧
     (VmmController.update_block_device_path rescanFailEnv stA "rootfs"
        "newimg").2.vm_resources.block.config_list =
       stA.vm_resources.block.config_list.set 0
         { stA.vm_resources.block.config_list.getD 0 dummyBlockConfig with
             path_on_host := "newimg" }) :=
  ⟨(update_block_device_path_no_rollback handlerMissingEnv stA "rootfs" "newimg" 0
      .OperationNotSupportedPreBoot stA rfl rfl).1 rfl,
   (update_block_device_path_no_rollback diskUpdateFailEnv stA "rootfs" "newimg" 0
      .OperationNotSupportedPreBoot stA rfl rfl).2.1 rfl rfl,
   (update_block_device_path_no_rollback rescanFailEnv stA "rootfs" "newimg" 0
      (.DriveConfig .User .BlockDeviceUpdateFailed)
      (setBlockPath stA 0 "newimg") rfl rfl).2.2 rfl rfl⟩

/-! ### Claim C1 -/

/-- The command-line fragments that the per-drive loop inserts for a given
drive before registering it: the `root=PARTUUID` pair when the drive is the
root device with a PARTUUID, nothing otherwise. -/
def rootChunk (d : BlockDeviceConfig) : List CmdFrag :=
  if d.is_root_device && d.get_partuuid.isSome then
    [.rootPartuuid (d.get_partuuid.getD ""), .flag d.is_read_only]
  else []

theorem block_partuuid_step_ok {d : BlockDeviceConfig} {v v2 : Vmm}
    (h : block_partuuid_step d v = .ok v2) :
    v2.kernel_cmdline.frags = v.kernel_cmdline.frags ++ rootChunk d := by
  unfold block_partuuid_step at h
  unfold rootChunk
  split at h
  case isTrue hc =>
    rw [if_pos hc]
    cases h1 : v.kernel_cmdline.insert_str (.rootPartuuid (d.get_partuuid.getD "")) with
    | error ce =>
      simp only [h1] at h
      exact Except.noConfusion h
    | ok c =>
      simp only [h1] at h
      cases h2 : c.insert_str (.flag d.is_read_only) with
      | error ce =>
        simp only [h2] at h
        exact Except.noConfusion h
      | ok c2 =>
        simp only [h2] at h
        injection h with h3
        subst h3
        show c2.frags = _
        rw [Cmdline.insert_str_ok_frags h2, Cmdline.insert_str_ok_frags h1,
          List.append_assoc]
        rfl
  case isFalse hc =>
    rw [if_neg hc]
    injection h with h3
    subst h3
    simp

theorem attach_one_block_ok_frags {env : HostEnv} {d : BlockDeviceConfig}
    {v v2 : Vmm} (h : attach_one_block env d v = .ok v2) :
    ∃ n, v2.kernel_cmdline.frags =
      v.kernel_cmdline.frags ++ rootChunk d ++ [CmdFrag.virtioMmio n] := by
  cases h0 : env.openBlockFile d.path_on_host (!d.is_read_only) with
  | error e =>
    simp only [attach_one_block, h0] at h
    exact Except.noConfusion h
  | ok f =>
    cases h1 : block_partuuid_step d v with
    | error e =>
      simp only [attach_one_block, h0, h1] at h
      exact Except.noConfusion h
    | ok v3 =>
      cases h2 : materialize_rate_limiter env d.rate_limiter with
      | error e =>
        simp only [attach_one_block, h0, h1, h2] at h
        exact Except.noConfusion h
      | ok rl =>
        cases h3 : env.createBlockDevice d.drive_id with
        | error e =>
          simp only [attach_one_block, h0, h1, h2, h3] at h
          exact Except.noConfusion h
        | ok blk =>
          cases h4 : env.createMmioDevice d.drive_id with
          | error e =>
            simp only [attach_one_block, h0, h1, h2, h3, h4] at h
            exact Except.noConfusion h
          | ok mdev =>
            simp only [attach_one_block, h0, h1, h2, h3, h4] at h
            obtain ⟨n, hn⟩ := attach_mmio_device_ok_frags h
            exact ⟨n, by rw [hn, block_partuuid_step_ok h1]⟩

/-- Shape of the fragment run appended by `attach_block_list`: one
`rootChunk`-plus-`virtio_mmio` group per drive, in list order. -/
def AddedChunks : List BlockDeviceConfig → List CmdFrag → Prop
  | [], l => l = []
  | d :: rest, l =>
    ∃ n l2, l = rootChunk d ++ CmdFrag.virtioMmio n :: l2 ∧ AddedChunks rest l2

theorem attach_block_list_ok_frags {env : HostEnv} {ds : List BlockDeviceConfig} :
    ∀ {v v2 : Vmm}, attach_block_list env ds v = .ok v2 →
      ∃ added, v2.kernel_cmdline.frags = v.kernel_cmdline.frags ++ added ∧
        AddedChunks ds added := by
  induction ds with
  | nil =>
    intro v v2 h
    simp only [attach_block_list] at h
    injection h with h2
    subst h2
    exact ⟨[], by simp, rfl⟩
  | cons d rest ih =>
    intro v v2 h
    cases h1 : attach_one_block env d v with
    | error e =>
      simp only [attach_block_list, h1] at h
      exact Except.noConfusion h
    | ok v3 =>
      simp only [attach_block_list, h1] at h
      obtain ⟨added2, hadd2, hch⟩ := ih h
      obtain ⟨n, hn⟩ := attach_one_block_ok_frags h1
      refine ⟨rootChunk d ++ CmdFrag.virtioMmio n :: added2, ?_, n, added2, rfl, hch⟩
      rw [hadd2, hn]
      simp

theorem rootDevVda_not_mem_rootChunk (d : BlockDeviceConfig) :
    CmdFrag.rootDevVda ∉ rootChunk d := by
  unfold rootChunk
  split <;> simp

theorem rootChunk_of_not_root {d : BlockDeviceConfig}
    (h : d.is_root_device = false) : rootChunk d = [] := by
  unfold rootChunk
  rw [if_neg]
  simp [h]

theorem addedChunks_no_vda : ∀ {ds : List BlockDeviceConfig} {added : List CmdFrag},
    AddedChunks ds added → CmdFrag.rootDevVda ∉ added := by
  intro ds
  induction ds with
  | nil =>
    intro added h
    rw [show added = [] from h]
    simp
  | cons d rest ih =>
    intro added h
    obtain ⟨n, l2, rfl, hch⟩ := h
    intro hmem
    rcases List.mem_append.mp hmem with hmem | hmem
    · exact rootDevVda_not_mem_rootChunk d hmem
    · rcases List.mem_cons.mp hmem with hmem | hmem
      · exact CmdFrag.noConfusion hmem
      · exact ih hch hmem

theorem addedChunks_no_root_frags : ∀ {ds : List BlockDeviceConfig}
    {added : List CmdFrag}, AddedChunks ds added →
    (∀ d ∈ ds, d.is_root_device = false) →
    ∀ u, CmdFrag.rootPartuuid u ∉ added := by
  intro ds
  induction ds with
  | nil =>
    intro added h _ u
    rw [show added = [] from h]
    simp
  | cons d rest ih =>
    intro added h hall u
    obtain ⟨n, l2, rfl, hch⟩ := h
    intro hmem
    rw [rootChunk_of_not_root (hall d (List.mem_cons_self d rest))] at hmem
    rcases List.mem_cons.mp hmem with hmem | hmem
    · exact CmdFrag.noConfusion hmem
    · exact ih hch (fun d2 hd2 => hall d2 (List.mem_cons_of_mem d hd2)) u hmem

theorem addedChunks_partuuid_mem : ∀ {ds : List BlockDeviceConfig}
    {added : List CmdFrag} {d : BlockDeviceConfig} {u : String},
    AddedChunks ds added → d ∈ ds → d.is_root_device = true →
    d.partuuid = some u →
    ∃ pre post, added =
      pre ++ CmdFrag.rootPartuuid u :: CmdFrag.flag d.is_read_only :: post := by
  intro ds
  induction ds with
  | nil =>
    intro added d u _ hd
    exact absurd hd (List.not_mem_nil d)
  | cons d0 rest ih =>
    intro added d u h hd hroot hu
    obtain ⟨n, l2, rfl, hch⟩ := h
    rcases List.mem_cons.mp hd with rfl | hd2
    · have hchunk : rootChunk d =
          [CmdFrag.rootPartuuid u, CmdFrag.flag d.is_read_only] := by
        unfold rootChunk
        rw [if_pos (by simp [BlockDeviceConfig.get_partuuid, hroot, hu])]
        simp [BlockDeviceConfig.get_partuuid, hu]
      exact ⟨[], CmdFrag.virtioMmio n :: l2, by rw [hchunk]; rfl⟩
    · obtain ⟨pre, post, hpp⟩ := ih hch hd2 hroot hu
      exact ⟨rootChunk d0 ++ CmdFrag.virtioMmio n :: pre, post, by rw [hpp]; simp⟩

theorem vda_root_step_ok_true {res : VmResources} {v v2 : Vmm}
    (hcond : (res.block.has_root_block_device && !res.block.has_partuuid_root) = true)
    (h : vda_root_step res v = .ok v2) :
    v2.kernel_cmdline.frags = v.kernel_cmdline.frags ++
      [CmdFrag.rootDevVda, CmdFrag.flag res.block.has_read_only_root] := by
  unfold vda_root_step at h
  rw [if_pos hcond] at h
  cases h1 : v.kernel_cmdline.insert_str .rootDevVda with
  | error ce =>
    simp only [h1] at h
    exact Except.noConfusion h
  | ok c =>
    simp only [h1] at h
    cases h2 : c.insert_str (.flag res.block.has_read_only_root) with
    | error ce =>
      simp only [h2] at h
      exact Except.noConfusion h
    | ok c2 =>
      simp only [h2] at h
      injection h with h3
      subst h3
      show c2.frags = _
      rw [Cmdline.insert_str_ok_frags h2, Cmdline.insert_str_ok_frags h1,
        List.append_assoc]
      rfl

theorem vda_root_step_ok_false {res : VmResources} {v v2 : Vmm}
    (hcond : (res.block.has_root_block_device && !res.block.has_partuuid_root) = false)
    (h : vda_root_step res v = .ok v2) : v2 = v := by
  unfold vda_root_step at h
  rw [if_neg (by simp [hcond])] at h
  injection h with h3
  exact h3.symm

/-- C1: on a successful `attach_block_devices`, (a) a root device without a
PARTUUID (under the registry invariant of at most one root device) makes the
command line receive `root=/dev/vda` immediately followed by the `ro`/`rw`
flag matching the root's read-only bit; (b) a root device with a PARTUUID
makes it receive `root=PARTUUID=<uuid>` immediately followed by the flag, and
`root=/dev/vda` is not added; (c) with no root device, neither fragment is
added. -/
theorem attach_block_devices_root_cmdline (env : HostEnv) (res : VmResources)
    (v v2 : Vmm) (d : BlockDeviceConfig) (u : String)
    (hok : attach_block_devices env res v = .ok v2) :
    (d ∈ res.block.config_list → d.is_root_device = true → d.partuuid = none →
      (∀ d2 ∈ res.block.config_list, d2.is_root_device = true → d2 = d) →
      ∃ rest, v2.kernel_cmdline.frags =
        v.kernel_cmdline.frags ++ CmdFrag.rootDevVda ::
          CmdFrag.flag d.is_read_only :: rest) ∧
    (d ∈ res.block.config_list → d.is_root_device = true → d.partuuid = some u →
      (∃ pre post, v2.kernel_cmdline.frags =
        v.kernel_cmdline.frags ++ pre ++ CmdFrag.rootPartuuid u ::
          CmdFrag.flag d.is_read_only :: post) ∧
      (CmdFrag.rootDevVda ∈ v2.kernel_cmdline.frags →
        CmdFrag.rootDevVda ∈ v.kernel_cmdline.frags)) ∧
    ((∀ d2 ∈ res.block.config_list, d2.is_root_device = false) →
      ∃ added, v2.kernel_cmdline.frags = v.kernel_cmdline.frags ++ added ∧
        CmdFrag.rootDevVda ∉ added ∧
        ∀ u2, CmdFrag.rootPartuuid u2 ∉ added) := by
  refine ⟨?_, ?_, ?_⟩
  · intro hmem hroot hpn huniq
    have hhr : res.block.has_root_block_device = true := by
      unfold BlockDeviceConfigs.has_root_block_device
      rw [List.any_eq_true]
      exact ⟨d, hmem, by rw [hroot]⟩
    have hpr : res.block.has_partuuid_root = false := by
      unfold BlockDeviceConfigs.has_partuuid_root
      rw [List.any_eq_false]
      intro c hc
      by_cases hcr : c.is_root_device = true
      · have hcd := huniq c hc hcr
        subst hcd
        simp [hpn]
      · simp [Bool.not_eq_true] at hcr
        simp [hcr]
    have hror : res.block.has_read_only_root = d.is_read_only := by
      unfold BlockDeviceConfigs.has_read_only_root
      cases hdro : d.is_read_only with
      | true =>
        rw [List.any_eq_true]
        exact ⟨d, hmem, by simp [hroot, hdro]⟩
      | false =>
        rw [List.any_eq_false]
        intro c hc
        by_cases hcr : c.is_root_device = true
        · have hcd := huniq c hc hcr
          subst hcd
          simp [hdro]
        · simp [Bool.not_eq_true] at hcr
          simp [hcr]
    cases hv : vda_root_step res v with
    | error e =>
      simp only [attach_block_devices, hv] at hok
      exact Except.noConfusion hok
    | ok v1 =>
      simp only [attach_block_devices, hv] at hok
      obtain ⟨added, hadded, -⟩ := attach_block_list_ok_frags hok
      refine ⟨added, ?_⟩
      rw [hadded, vda_root_step_ok_true (by rw [hhr, hpr]; rfl) hv, hror]
      simp
  · intro hmem hroot hps
    have hpr : res.block.has_partuuid_root = true := by
      unfold BlockDeviceConfigs.has_partuuid_root
      rw [List.any_eq_true]
      exact ⟨d, hmem, by rw [hroot, hps]; rfl⟩
    cases hv : vda_root_step res v with
    | error e =>
      simp only [attach_block_devices, hv] at hok
      exact Except.noConfusion hok
    | ok v1 =>
      simp only [attach_block_devices, hv] at hok
      have hv1 : v1 = v := vda_root_step_ok_false (by rw [hpr]; simp) hv
      subst hv1
      obtain ⟨added, hadded, hch⟩ := attach_block_list_ok_frags hok
      obtain ⟨pre, post, hpp⟩ := addedChunks_partuuid_mem hch hmem hroot hps
      constructor
      · refine ⟨pre, post, ?_⟩
        rw [hadded, hpp]
        simp
      · intro hmem2
        rw [hadded] at hmem2
        rcases List.mem_append.mp hmem2 with hm | hm
        · exact hm
        · exact absurd hm (addedChunks_no_vda hch)
  · intro hall
    have hhr : res.block.has_root_block_device = false := by
      unfold BlockDeviceConfigs.has_root_block_device
      rw [List.any_eq_false]
      intro c hc
      simp [hall c hc]
    cases hv : vda_root_step res v with
    | error e =>
      simp only [attach_block_devices, hv] at hok
      exact Except.noConfusion hok
    | ok v1 =>
      simp only [attach_block_devices, hv] at hok
      have hv1 : v1 = v := vda_root_step_ok_false (by rw [hhr]; simp) hv
      subst hv1
      obtain ⟨added, hadded, hch⟩ := attach_block_list_ok_frags hok
      exact ⟨added, hadded, addedChunks_no_vda hch,
        addedChunks_no_root_frags hch hall⟩

/-- Root block device carrying a PARTUUID. -/
def blkCfgP : BlockDeviceConfig :=
  ⟨"rootp", "imgp", true, some "0eaa91a0-01", false, none⟩

/-- Registry holding only the PARTUUID root drive. -/
def resRootPart : VmResources :=
  ⟨⟨some 1, some 128, some false, none⟩, none, ⟨[blkCfgP]⟩, [], none⟩

/-- The `Vmm` produced by attaching `resRootPart`'s drives under `okEnv`. -/
def vmmAfterRootPart : Vmm :=
  ⟨⟨[.rootPartuuid "0eaa91a0-01", .flag false, .virtioMmio 20], 4096⟩,
   [((TYPE_BLOCK, "rootp"), ⟨false, [], []⟩)]⟩

/-- Witness for the C1 theorem at concrete inputs (the PARTUUID case). -/
theorem attach_block_devices_root_cmdline_witness :
    (∃ pre post, vmmAfterRootPart.kernel_cmdline.frags =
      emptyCmdVmm.kernel_cmdline.frags ++ pre ++
        CmdFrag.rootPartuuid "0eaa91a0-01" :: CmdFrag.flag false :: post) ∧
    (CmdFrag.rootDevVda ∈ vmmAfterRootPart.kernel_cmdline.frags →
      CmdFrag.rootDevVda ∈ emptyCmdVmm.kernel_cmdline.frags) :=
  (attach_block_devices_root_cmdline okEnv resRootPart emptyCmdVmm
    vmmAfterRootPart blkCfgP "0eaa91a0-01" rfl).2.1
    (List.mem_singleton.mpr rfl) rfl rfl

/-! ### Claim C7 -/

theorem attach_one_net_ok_frags {env : HostEnv} {cfg : NetworkInterfaceConfig}
    {v v2 : Vmm} (h : attach_one_net env cfg v = .ok v2) :
    ∃ n, v2.kernel_cmdline.frags = v.kernel_cmdline.frags ++ [CmdFrag.virtioMmio n] := by
  cases h1 : materialize_rate_limiter env cfg.rx_rate_limiter with
  | error e =>
    simp only [attach_one_net, h1] at h
    exact Except.noConfusion h
  | ok rx =>
    cases h2 : materialize_rate_limiter env cfg.tx_rate_limiter with
    | error e =>
      simp only [attach_one_net, h1, h2] at h
      exact Except.noConfusion h
    | ok tx =>
      cases h3 : env.openTap cfg.iface_id with
      | error te =>
        simp only [attach_one_net, h1, h2, h3] at h
        exact Except.noConfusion h
      | ok tap =>
        cases h4 : env.createNetDevice cfg.iface_id with
        | error e =>
          simp only [attach_one_net, h1, h2, h3, h4] at h
          exact Except.noConfusion h
        | ok net =>
          cases h5 : env.createMmioDevice cfg.iface_id with
          | error e =>
            simp only [attach_one_net, h1, h2, h3, h4, h5] at h
            exact Except.noConfusion h
          | ok mdev =>
            simp only [attach_one_net, h1, h2, h3, h4, h5] at h
            exact attach_mmio_device_ok_frags h

theorem attach_net_list_ok_frags {env : HostEnv}
    {cfgs : List NetworkInterfaceConfig} : ∀ {v v2 : Vmm},
    attach_net_list env cfgs v = .ok v2 →
      ∃ added, v2.kernel_cmdline.frags = v.kernel_cmdline.frags ++ added := by
  induction cfgs with
  | nil =>
    intro v v2 h
    simp only [attach_net_list] at h
    injection h with h2
    subst h2
    exact ⟨[], by simp⟩
  | cons cfg rest ih =>
    intro v v2 h
    cases h1 : attach_one_net env cfg v with
    | error e =>
      simp only [attach_net_list, h1] at h
      exact Except.noConfusion h
    | ok v3 =>
      simp only [attach_net_list, h1] at h
      obtain ⟨a2, h2⟩ := ih h
      obtain ⟨n, h3⟩ := attach_one_net_ok_frags h1
      exact ⟨CmdFrag.virtioMmio n :: a2, by rw [h2, h3]; simp⟩

theorem attach_vsock_device_ok_frags {env : HostEnv} {res : VmResources}
    {v v2 : Vmm} (h : attach_vsock_device env res v = .ok v2) :
    ∃ added, v2.kernel_cmdline.frags = v.kernel_cmdline.frags ++ added := by
  cases hv : res.vsock with
  | none =>
    simp only [attach_vsock_device, hv] at h
    injection h with h2
    subst h2
    exact ⟨[], by simp⟩
  | some cfg =>
    cases h1 : env.vsockBackendNew with
    | error e =>
      simp only [attach_vsock_device, hv, h1] at h
      exact Except.noConfusion h
    | ok b =>
      cases h2 : env.vsockNew with
      | error e =>
        simp only [attach_vsock_device, hv, h1, h2] at h
        exact Except.noConfusion h
      | ok vs =>
        cases h3 : env.createMmioDevice cfg.vsock_id with
        | error e =>
          simp only [attach_vsock_device, hv, h1, h2, h3] at h
          exact Except.noConfusion h
        | ok mdev =>
          simp only [attach_vsock_device, hv, h1, h2, h3] at h
          obtain ⟨n, hn⟩ := attach_mmio_device_ok_frags h
          exact ⟨[CmdFrag.virtioMmio n], hn⟩

theorem vda_root_step_ok_frags {res : VmResources} {v v2 : Vmm}
    (h : vda_root_step res v = .ok v2) :
    ∃ pre, v2.kernel_cmdline.frags = v.kernel_cmdline.frags ++ pre := by
  cases hcond : (res.block.has_root_block_device && !res.block.has_partuuid_root) with
  | true =>
    exact ⟨_, vda_root_step_ok_true hcond h⟩
  | false =>
    rw [vda_root_step_ok_false hcond h]
    exact ⟨[], by simp⟩

theorem attach_block_devices_ok_frags {env : HostEnv} {res : VmResources}
    {v v2 : Vmm} (h : attach_block_devices env res v = .ok v2) :
    ∃ added, v2.kernel_cmdline.frags = v.kernel_cmdline.frags ++ added := by
  cases hv : vda_root_step res v with
  | error e =>
    simp only [attach_block_devices, hv] at h
    exact Except.noConfusion h
  | ok v1 =>
    simp only [attach_block_devices, hv] at h
    obtain ⟨a2, h2, -⟩ := attach_block_list_ok_frags h
    obtain ⟨a1, h1⟩ := vda_root_step_ok_frags hv
    exact ⟨a1 ++ a2, by rw [h2, h1]; simp⟩

/-- C7: `build_microvm` consumes the registry by shared reference and mutates
only the clone of the boot command line, so the registry — including the
canonical command line — is unchanged whatever the outcome, while the `Vmm`
produced on success carries the cloned command line extended with the
fragments inserted during attachment. -/
theorem build_microvm_preserves_registry (env : HostEnv) (res : VmResources)
    (boot : BootConfig) (vmm : Vmm) :
    (build_microvm env res).2 = res ∧
    (res.boot_source = some boot → (build_microvm env res).1 = .ok vmm →
      ∃ added, vmm.kernel_cmdline.frags = boot.cmdline.frags ++ added) := by
  constructor
  · unfold build_microvm
    dsimp only
    repeat' split
    all_goals rfl
  · intro hboot hok
    have hpair : build_microvm env res = (.ok vmm, (build_microvm env res).2) := by
      rw [← hok]
    simp only [build_microvm, hboot] at hpair
    cases hgm : create_guest_memory env res with
    | error e =>
      simp only [hgm] at hpair
      injection hpair with hf hs
      exact RunOutcome.noConfusion hf
    | ok gm =>
      simp only [hgm] at hpair
      cases hvc : vcpu_config res with
      | none =>
        simp only [hvc] at hpair
        injection hpair with hf hs
        exact RunOutcome.noConfusion hf
      | some vc =>
        simp only [hvc] at hpair
        cases hlk : load_kernel env boot with
        | error e =>
          simp only [hlk] at hpair
          injection hpair with hf hs
          exact RunOutcome.noConfusion hf
        | ok entry =>
          simp only [hlk] at hpair
          cases hsm : setup_metrics env with
          | panic =>
            simp only [hsm] at hpair
            injection hpair with hf hs
            exact RunOutcome.noConfusion hf
          | err e =>
            simp only [hsm] at hpair
            injection hpair with hf hs
            exact RunOutcome.noConfusion hf
          | ok u1 =>
            simp only [hsm] at hpair
            cases hse : setup_event_manager env with
            | panic =>
              simp only [hse] at hpair
              injection hpair with hf hs
              exact RunOutcome.noConfusion hf
            | err e =>
              simp only [hse] at hpair
              injection hpair with hf hs
              exact RunOutcome.noConfusion hf
            | ok u2 =>
              simp only [hse] at hpair
              cases hkv : setup_kvm_vm env with
              | error e =>
                simp only [hkv] at hpair
                injection hpair with hf hs
                exact RunOutcome.noConfusion hf
              | ok u3 =>
                simp only [hkv] at hpair
                cases hpio : env.pioNew with
                | error e =>
                  simp only [hpio] at hpair
                  injection hpair with hf hs
                  exact RunOutcome.noConfusion hf
                | ok u4 =>
                  simp only [hpio] at hpair
                  cases hirq : env.setupIrqchip with
                  | error e =>
                    simp only [hirq] at hpair
                    injection hpair with hf hs
                    exact RunOutcome.noConfusion hf
                  | ok u5 =>
                    simp only [hirq] at hpair
                    cases hleg : env.attachLegacy with
                    | error e =>
                      simp only [hleg] at hpair
                      injection hpair with hf hs
                      exact RunOutcome.noConfusion hf
                    | ok u6 =>
                      simp only [hleg] at hpair
                      cases hvcp : env.createVcpus with
                      | error e =>
                        simp only [hvcp] at hpair
                        injection hpair with hf hs
                        exact RunOutcome.noConfusion hf
                      | ok u7 =>
                        simp only [hvcp] at hpair
                        cases hblk : attach_block_devices env res ⟨boot.cmdline, []⟩ with
                        | error e =>
                          simp only [hblk] at hpair
                          injection hpair with hf hs
                          exact RunOutcome.noConfusion hf
                        | ok v1 =>
                          simp only [hblk] at hpair
                          cases hnet : attach_net_devices env res v1 with
                          | error e =>
                            simp only [hnet] at hpair
                            injection hpair with hf hs
                            exact RunOutcome.noConfusion hf
                          | ok v2x =>
                            simp only [hnet] at hpair
                            cases hvs : attach_vsock_device env res v2x with
                            | error e =>
                              simp only [hvs] at hpair
                              injection hpair with hf hs
                              exact RunOutcome.noConfusion hf
                            | ok v3 =>
                              simp only [hvs] at hpair
                              cases hlc : load_cmdline env v3 with
                              | error e =>
                                simp only [hlc] at hpair
                                injection hpair with hf hs
                                exact RunOutcome.noConfusion hf
                              | ok u8 =>
                                simp only [hlc] at hpair
                                cases hcs : env.configureSystem with
                                | error e =>
                                  simp only [hcs] at hpair
                                  injection hpair with hf hs
                                  exact RunOutcome.noConfusion hf
                                | ok u9 =>
                                  simp only [hcs] at hpair
                                  cases hre : env.registerEvents with
                                  | error e =>
                                    simp only [hre] at hpair
                                    injection hpair with hf hs
                                    exact RunOutcome.noConfusion hf
                                  | ok u10 =>
                                    simp only [hre] at hpair
                                    cases hsv : env.startVcpus with
                                    | error e =>
                                      simp only [hsv] at hpair
                                      injection hpair with hf hs
                                      exact RunOutcome.noConfusion hf
                                    | ok u11 =>
                                      simp only [hsv] at hpair
                                      injection hpair with hf hs
                                      injection hf with hv3
                                      subst hv3
                                      obtain ⟨a1, h1⟩ := attach_block_devices_ok_frags hblk
                                      obtain ⟨a2, h2⟩ := attach_net_list_ok_frags hnet
                                      obtain ⟨a3, h3⟩ := attach_vsock_device_ok_frags hvs
                                      refine ⟨a1 ++ a2 ++ a3, ?_⟩
                                      rw [h3, h2, h1]
                                      simp

/-- Registry with a boot source, no devices. -/
def resBoot : VmResources :=
  ⟨⟨some 1, some 128, some false, none⟩, some boot0, ⟨[]⟩, [], none⟩

/-- Witness for the C7 theorem at concrete inputs. -/
theorem build_microvm_preserves_registry_witness :
    (build_microvm okEnv resBoot).2 = resBoot ∧
    (∃ added, emptyCmdVmm.kernel_cmdline.frags = boot0.cmdline.frags ++ added) :=
  ⟨(build_microvm_preserves_registry okEnv resBoot boot0 emptyCmdVmm).1,
   (build_microvm_preserves_registry okEnv resBoot boot0 emptyCmdVmm).2 rfl rfl⟩

end Firecracker
